import Mathlib

/-!
# Factory calibration restore (`factory_cal.c`)

A shallow embedding of `restoreFactoryCal` from
`minimal_rangeproc_impl/src/factory_cal.c`.

The C function reads the process-wide `gSysContext`, fills a local request
`factoryCalCfg`, reads the calibration record from flash into the global
`calibData`, checks its magic tag, hands the request to the radar control
library and finally copies part of the request into
`gSysContext.fecTxclpcCalCmd`.

The embedding passes the globals explicitly, takes the three library calls
(`Flash_read`, `MMWave_factoryCalibConfig`, `MMWave_decodeError`) as an
environment of functions, and records every library call, every log line and
the magic comparison in a trace, in program order.
-/

namespace FactoryCal

/-! ## Constants -/

/-- Modelled from the spec: the status code `SystemP_SUCCESS` of
`kernel/dpl/SystemP.h`, a header that is not among the sources. The result
code of a successful run is `0`. -/
def SystemP_SUCCESS : Int := 0

/-- Modelled from the spec: the status code `SystemP_FAILURE` of
`kernel/dpl/SystemP.h`, a header that is not among the sources. The result
code of a failure is `-1`. -/
def SystemP_FAILURE : Int := -1

/-- Build-time constants that `factory_cal.c` takes from headers which are not
among the sources (`defines.h`, `factory_cal.h`, `mmwave.h`). They are
parameters of the embedding.

`calRfFreq start rampEnd` stands for the value of the double-precision
expression of lines 103-104,
`start + (((CLI_CHIRP_SLOPE * 256.0)/300) * (rampEnd * 0.1)) / 2`,
after its conversion to an integer; the store into the `uint16_t` local is
modelled in `restoreFactoryCal_request`. -/
structure Defines where
  CLI_FACCALCFG_RX_GAIN : Nat
  CLI_FACCALCFG_TX_BACKOFF_SEL : Nat
  CLI_FACCALCFG_FLASH_OFFSET : Nat
  MMWDEMO_CALIB_STORE_MAGIC : Nat
  MMWAVE_ERFSBOOTCAL : Int
  sizeof_Mmw_calibData : Nat
  calRfFreq : Nat → Nat → Nat

/-! ## Data model -/

/-- The stored calibration record `Mmw_calibData`: a magic tag followed by the
calibration payload, which this code never looks into (a list of bytes). -/
structure Mmw_calibData where
  magic : Nat
  calibData : List Nat
deriving DecidableEq, Repr

/-- The static initialiser `calibData = {0}` of line 67, for a payload of
`n` bytes. -/
def Mmw_calibData.zero (n : Nat) : Mmw_calibData :=
  { magic := 0, calibData := List.replicate n 0 }

/-- Pointer values stored in the request: `NULL`, or the address
`&calibData.calibData` of the payload inside the global record. -/
inductive Ptr where
  | NULL
  | calibData_calibData
deriving DecidableEq, Repr

/-- What a request pointer refers to, given the global record. -/
def Ptr.deref (p : Ptr) (calibData : Mmw_calibData) : Option (List Nat) :=
  match p with
  | Ptr.NULL => none
  | Ptr.calibData_calibData => some calibData.calibData

/-- The factory calibration command `fecRFFactoryCalCmd` inside the request.
Two-element arrays are pairs: `.1` is index 0 and `.2` is index 1. -/
structure FecRFFactoryCalCmd where
  h_CalCtrlBitMask : Nat
  c_MiscCalCtrl : Nat
  c_CalRxGainSel : Nat
  c_CalTxBackOffSel : Nat × Nat
  h_CalRfFreq : Nat
  xh_CalRfSlope : Int
  c_TxPwrCalTxEnaMask : Nat × Nat
deriving DecidableEq, Repr

/-- The request `MMWave_calibCfg` handed to `MMWave_factoryCalibConfig`. -/
structure MMWave_calibCfg where
  isFactoryCalEnabled : Bool
  fecRFFactoryCalCmd : FecRFFactoryCalCmd
  ptrAteCalibration : Ptr
  isATECalibEfused : Bool
  ptrFactoryCalibData : Ptr
deriving DecidableEq, Repr

/-- The initialiser `MMWave_calibCfg factoryCalCfg = {0U}` of line 73. -/
def MMWave_calibCfg.zero : MMWave_calibCfg :=
  { isFactoryCalEnabled := false
    fecRFFactoryCalCmd :=
      { h_CalCtrlBitMask := 0, c_MiscCalCtrl := 0, c_CalRxGainSel := 0
        c_CalTxBackOffSel := (0, 0), h_CalRfFreq := 0, xh_CalRfSlope := 0
        c_TxPwrCalTxEnaMask := (0, 0) }
    ptrAteCalibration := Ptr.NULL
    isATECalibEfused := false
    ptrFactoryCalibData := Ptr.NULL }

/-- The runtime CLPC calibration command `gSysContext.fecTxclpcCalCmd`. -/
structure FecTxclpcCalCmd where
  c_CalMode : Nat
  c_CalTxBackOffSel : Nat × Nat
  h_CalRfFreq : Nat
  xh_CalRfSlope : Int
  c_TxPwrCalTxEnaMask : Nat × Nat
deriving DecidableEq, Repr

/-- The fields of `gSysContext.profileComCfg` used here. -/
structure ProfileComCfg where
  h_ChirpRampEndTime : Nat
deriving DecidableEq, Repr

/-- The fields of `gSysContext.profileTimeCfg` used here. -/
structure ProfileTimeCfg where
  w_ChirpRfFreqStart : Nat
  xh_ChirpRfFreqSlope : Int
deriving DecidableEq, Repr

/-- The channel configuration `gSysContext.channelCfg`. -/
structure ChannelCfg where
  h_TxChCtrlBitMask : Nat
  h_RxChCtrlBitMask : Nat
  c_MiscCtrl : Nat
deriving DecidableEq, Repr

/-- The part of the process-wide `gSysContext` that the embedded functions
read or write. -/
structure SysContext where
  gCtrlHandle : Nat
  profileComCfg : ProfileComCfg
  profileTimeCfg : ProfileTimeCfg
  channelCfg : ChannelCfg
  numTxAntennas : Nat
  numRxAntennas : Nat
  fecTxclpcCalCmd : FecTxclpcCalCmd
deriving DecidableEq, Repr

/-! ## Environment and trace -/

/-- The library calls of `restoreFactoryCal`.

* `Flash_read offset len buf` gives the status and the content of the
  destination buffer after the call (`buf` is its content before).
* `MMWave_factoryCalibConfig handle cfg calibData` gives `(retVal, errCode)`;
  `calibData` is the global record the request may point into.
* `MMWave_decodeError errCode` gives
  `(errorLevel, mmWaveErrorCode, subsysErrorCode)`. -/
structure Env where
  Flash_read : Nat → Nat → Mmw_calibData → Int × Mmw_calibData
  MMWave_factoryCalibConfig : Nat → MMWave_calibCfg → Mmw_calibData → Int × Int
  MMWave_decodeError : Int → Int × Int × Int

/-- The `DebugP_log` lines of `restoreFactoryCal`, one constructor per call
site (lines 134, 142, 160, 163, 168). -/
inductive LogMsg where
  | couldNotReadFromFlash
  | headerValidationFailed
  | controlInitializationFailed (errCode errorLevel mmWaveErrorCode subsysErrorCode : Int)
  | factoryCalibrationFailure
  | invalidFactoryCalibrationArguments
deriving DecidableEq, Repr

/-- Observable steps of a run, in program order. `magicCompare` marks that the
comparison of line 139 was evaluated. -/
inductive Event where
  | flashRead (offset len : Nat)
  | cacheWb (len : Nat)
  | magicCompare (magic : Nat)
  | factoryCalibConfig (handle : Nat) (cfg : MMWave_calibCfg) (calibData : Mmw_calibData)
  | decodeError (errCode : Int)
  | log (msg : LogMsg)
deriving DecidableEq, Repr

/-- Result of a run: the returned code, the globals afterwards and the
trace. -/
structure Outcome where
  ret : Int
  gSysContext : SysContext
  calibData : Mmw_calibData
  trace : List Event
deriving DecidableEq, Repr

/-! ## `restoreFactoryCal` -/

/-- Lines 72-126 of `restoreFactoryCal`: the local request as it stands just
before the flash read. -/
def restoreFactoryCal_request (k : Defines) (gSysContext : SysContext) : MMWave_calibCfg :=
  let factoryCalCfg := MMWave_calibCfg.zero
  let factoryCalCfg := { factoryCalCfg with isFactoryCalEnabled := true }
  let factoryCalCfg := { factoryCalCfg with fecRFFactoryCalCmd.h_CalCtrlBitMask := 0xCE }
  let factoryCalCfg := { factoryCalCfg with fecRFFactoryCalCmd.c_MiscCalCtrl := 0x0 }
  let factoryCalCfg :=
    { factoryCalCfg with fecRFFactoryCalCmd.c_CalRxGainSel := k.CLI_FACCALCFG_RX_GAIN % 256 }
  let factoryCalCfg :=
    { factoryCalCfg with
      fecRFFactoryCalCmd.c_CalTxBackOffSel :=
        (k.CLI_FACCALCFG_TX_BACKOFF_SEL % 256, factoryCalCfg.fecRFFactoryCalCmd.c_CalTxBackOffSel.2) }
  let factoryCalCfg :=
    { factoryCalCfg with
      fecRFFactoryCalCmd.c_CalTxBackOffSel :=
        (factoryCalCfg.fecRFFactoryCalCmd.c_CalTxBackOffSel.1, k.CLI_FACCALCFG_TX_BACKOFF_SEL % 256) }
  let calRfFreq : Nat :=
    k.calRfFreq gSysContext.profileTimeCfg.w_ChirpRfFreqStart
      gSysContext.profileComCfg.h_ChirpRampEndTime % 65536
  let factoryCalCfg := { factoryCalCfg with fecRFFactoryCalCmd.xh_CalRfSlope := 0x4D }
  let factoryCalCfg := { factoryCalCfg with fecRFFactoryCalCmd.h_CalRfFreq := calRfFreq }
  let factoryCalCfg :=
    if gSysContext.channelCfg.h_TxChCtrlBitMask = 0x3 then
      { factoryCalCfg with fecRFFactoryCalCmd.c_TxPwrCalTxEnaMask := (0x3, 0x1) }
    else
      let factoryCalCfg :=
        if gSysContext.channelCfg.h_TxChCtrlBitMask = 0x1 then
          { factoryCalCfg with fecRFFactoryCalCmd.c_TxPwrCalTxEnaMask := (0x1, 0x1) }
        else factoryCalCfg
      if gSysContext.channelCfg.h_TxChCtrlBitMask = 0x2 then
        { factoryCalCfg with fecRFFactoryCalCmd.c_TxPwrCalTxEnaMask := (0x2, 0x2) }
      else factoryCalCfg
  let factoryCalCfg := { factoryCalCfg with ptrAteCalibration := Ptr.NULL }
  { factoryCalCfg with isATECalibEfused := true }

/-- Lines 173-180: the copy of the request into the runtime command. -/
def restoreFactoryCal_project (factoryCalCfg : MMWave_calibCfg) (cmd : FecTxclpcCalCmd) :
    FecTxclpcCalCmd :=
  let cmd := { cmd with c_CalMode := 0x0 }
  let cmd :=
    { cmd with c_CalTxBackOffSel :=
        (factoryCalCfg.fecRFFactoryCalCmd.c_CalTxBackOffSel.1, cmd.c_CalTxBackOffSel.2) }
  let cmd :=
    { cmd with c_CalTxBackOffSel :=
        (cmd.c_CalTxBackOffSel.1, factoryCalCfg.fecRFFactoryCalCmd.c_CalTxBackOffSel.2) }
  let cmd := { cmd with h_CalRfFreq := factoryCalCfg.fecRFFactoryCalCmd.h_CalRfFreq }
  let cmd := { cmd with xh_CalRfSlope := factoryCalCfg.fecRFFactoryCalCmd.xh_CalRfSlope }
  let cmd :=
    { cmd with c_TxPwrCalTxEnaMask :=
        (factoryCalCfg.fecRFFactoryCalCmd.c_TxPwrCalTxEnaMask.1, cmd.c_TxPwrCalTxEnaMask.2) }
  { cmd with c_TxPwrCalTxEnaMask :=
      (cmd.c_TxPwrCalTxEnaMask.1, factoryCalCfg.fecRFFactoryCalCmd.c_TxPwrCalTxEnaMask.2) }

/-- Lines 146-150: the request as it is handed to `MMWave_factoryCalibConfig`
at line 152. -/
def restoreFactoryCal_applied (k : Defines) (gSysContext : SysContext) : MMWave_calibCfg :=
  let factoryCalCfg := restoreFactoryCal_request k gSysContext
  let factoryCalCfg := { factoryCalCfg with ptrFactoryCalibData := Ptr.calibData_calibData }
  { factoryCalCfg with isFactoryCalEnabled := false }

/-- The function `restoreFactoryCal` (lines 70-183). `gSysContext` and
`calibData` are the globals on entry. -/
def restoreFactoryCal (k : Defines) (env : Env) (gSysContext : SysContext)
    (calibData : Mmw_calibData) : Outcome :=
  -- lines 72-126: the request is filled in before the read
  -- line 129: read flash memory into the global record
  let rd := env.Flash_read k.CLI_FACCALCFG_FLASH_OFFSET k.sizeof_Mmw_calibData calibData
  let retVal := rd.1
  let calibData := rd.2
  let trace :=
    [Event.flashRead k.CLI_FACCALCFG_FLASH_OFFSET k.sizeof_Mmw_calibData,
     Event.cacheWb k.sizeof_Mmw_calibData]
  if retVal = SystemP_FAILURE then
    { ret := -1, gSysContext := gSysContext, calibData := calibData
      trace := trace ++ [Event.log LogMsg.couldNotReadFromFlash] }
  else
    let trace := trace ++ [Event.magicCompare calibData.magic]
    if calibData.magic ≠ k.MMWDEMO_CALIB_STORE_MAGIC then
      { ret := -1, gSysContext := gSysContext, calibData := calibData
        trace := trace ++ [Event.log LogMsg.headerValidationFailed] }
    else
      -- lines 146-150: payload pointer set, enabled flag cleared
      let factoryCalCfg := restoreFactoryCal_applied k gSysContext
      -- line 152: the apply call
      let ap := env.MMWave_factoryCalibConfig gSysContext.gCtrlHandle factoryCalCfg calibData
      let retVal := ap.1
      let errCode := ap.2
      let trace :=
        trace ++ [Event.factoryCalibConfig gSysContext.gCtrlHandle factoryCalCfg calibData]
      if retVal ≠ SystemP_SUCCESS then
        let dec := env.MMWave_decodeError errCode
        let errorLevel := dec.1
        let mmWaveErrorCode := dec.2.1
        let subsysErrorCode := dec.2.2
        let trace :=
          trace ++ [Event.decodeError errCode,
            Event.log (LogMsg.controlInitializationFailed errCode errorLevel mmWaveErrorCode
              subsysErrorCode)]
        if mmWaveErrorCode = k.MMWAVE_ERFSBOOTCAL then
          { ret := -1, gSysContext := gSysContext, calibData := calibData
            trace := trace ++ [Event.log LogMsg.factoryCalibrationFailure] }
        else
          { ret := -1, gSysContext := gSysContext, calibData := calibData
            trace := trace ++ [Event.log LogMsg.invalidFactoryCalibrationArguments] }
      else
        let gSysContext :=
          { gSysContext with
            fecTxclpcCalCmd := restoreFactoryCal_project factoryCalCfg gSysContext.fecTxclpcCalCmd }
        { ret := retVal, gSysContext := gSysContext, calibData := calibData, trace := trace }

/-! ## Reading a trace -/

/-- The requests handed to `MMWave_factoryCalibConfig` during a run, in
order. -/
def applyCalls : List Event → List MMWave_calibCfg
  | [] => []
  | Event.factoryCalibConfig _ cfg _ :: rest => cfg :: applyCalls rest
  | _ :: rest => applyCalls rest

/-- The magic values compared against the store magic during a run. -/
def magicCompares : List Event → List Nat
  | [] => []
  | Event.magicCompare m :: rest => m :: magicCompares rest
  | _ :: rest => magicCompares rest

/-- The log lines emitted during a run, in order. -/
def logs : List Event → List LogMsg
  | [] => []
  | Event.log msg :: rest => msg :: logs rest
  | _ :: rest => logs rest

/-- The flash reads of a run, each as offset and length. -/
def flashReads : List Event → List (Nat × Nat)
  | [] => []
  | Event.flashRead offset len :: rest => (offset, len) :: flashReads rest
  | _ :: rest => flashReads rest

/-- The error codes handed to `MMWave_decodeError` during a run. -/
def decodeCalls : List Event → List Int
  | [] => []
  | Event.decodeError errCode :: rest => errCode :: decodeCalls rest
  | _ :: rest => decodeCalls rest

/-- For each call of `MMWave_factoryCalibConfig`, the bytes that the request's
`ptrFactoryCalibData` refers to at the moment of the call. -/
def applyPayloads : List Event → List (Option (List Nat))
  | [] => []
  | Event.factoryCalibConfig _ cfg calibData :: rest =>
      cfg.ptrFactoryCalibData.deref calibData :: applyPayloads rest
  | _ :: rest => applyPayloads rest

/-! ## Sample inputs

Concrete constants, globals and library behaviours on which the embedding is
evaluated. The general theorems hold for every choice of them. -/

/-- Sample build constants. `calRfFreq` is an integer stand-in for the
double-precision expression. -/
def sampleDefines : Defines :=
  { CLI_FACCALCFG_RX_GAIN := 40
    CLI_FACCALCFG_TX_BACKOFF_SEL := 0
    CLI_FACCALCFG_FLASH_OFFSET := 0x1FF000
    MMWDEMO_CALIB_STORE_MAGIC := 0x7CB28DF9
    MMWAVE_ERFSBOOTCAL := 21
    sizeof_Mmw_calibData := 8
    calRfFreq := fun start rampEnd => start + (35 * 256 * rampEnd) / (300 * 10 * 2) }

/-- Sample runtime command held before the call. -/
def sampleCmd : FecTxclpcCalCmd :=
  { c_CalMode := 1, c_CalTxBackOffSel := (7, 7), h_CalRfFreq := 1234
    xh_CalRfSlope := -5, c_TxPwrCalTxEnaMask := (9, 9) }

/-- Sample globals with TX channel bitmask `txMask`. -/
def sampleContext (txMask : Nat) : SysContext :=
  { gCtrlHandle := 1
    profileComCfg := { h_ChirpRampEndTime := 361 }
    profileTimeCfg := { w_ChirpRfFreqStart := 50347, xh_ChirpRfFreqSlope := 419 }
    channelCfg := { h_TxChCtrlBitMask := txMask, h_RxChCtrlBitMask := 7, c_MiscCtrl := 0 }
    numTxAntennas := 0
    numRxAntennas := 0
    fecTxclpcCalCmd := sampleCmd }

/-- A stored record with the right magic and a four-byte payload. -/
def sampleRecord : Mmw_calibData :=
  { magic := 0x7CB28DF9, calibData := [0x11, 0x22, 0x33, 0x44] }

/-- Library behaviour: the read returns `readStatus` and delivers `record`,
the apply call returns `(applyRet, errCode)`, and the decoder yields
`(1, decoded, 0)`. -/
def sampleEnv (readStatus : Int) (record : Mmw_calibData) (applyRet errCode decoded : Int) : Env :=
  { Flash_read := fun _ _ _ => (readStatus, record)
    MMWave_factoryCalibConfig := fun _ _ _ => (applyRet, errCode)
    MMWave_decodeError := fun _ => (1, decoded, 0) }

/-- The trace common to every run: the flash read and the cache write-back. -/
def readTrace (k : Defines) : List Event :=
  [Event.flashRead k.CLI_FACCALCFG_FLASH_OFFSET k.sizeof_Mmw_calibData,
   Event.cacheWb k.sizeof_Mmw_calibData]

end FactoryCal

/-!
# Channel configuration and ADC buffer set-up (`mmwave_control_config.c`)

A shallow embedding of `MMWave_populateChannelCfg`, `Mmwave_EnChannelSetOffset`
and `Mmwave_ADCBufConfig` from
`minimal_rangeproc_impl/src/mmwave_control_config.c`.

The ADC buffer control registers are 32-bit words. The register field macros
and the field masks and shifts come from headers that are not among the
sources; the masks and shifts are parameters, and every field insertion is
also recorded, in program order, with the value handed to it.
-/

namespace ControlConfig

open FactoryCal (SysContext)

/-- Build-time constants that `MMWave_populateChannelCfg` and
`Mmwave_ADCBufConfig` take from headers which are not among the sources
(`defines.h`, `common/sys_defs.h`). They are parameters of the embedding. -/
structure ChannelDefines where
  CLI_CHA_CFG_TX_BITMASK : Nat
  CLI_CHA_CFG_RX_BITMASK : Nat
  CLI_CHA_CFG_MISC_CTRL : Nat
  SYS_COMMON_NUM_TX_ANTENNAS : Nat
  SYS_COMMON_NUM_RX_CHANNEL : Nat

/-- Lines 335-339: the loop over `i = 0 .. SYS_COMMON_NUM_TX_ANTENNAS - 1`,
given as the list of the values of `i` still to run. -/
def MMWave_populateChannelCfg_txLoop : List Nat → SysContext → SysContext
  | [], gSysContext => gSysContext
  | i :: rest, gSysContext =>
    if (gSysContext.channelCfg.h_TxChCtrlBitMask >>> i) &&& 0x1 ≠ 0 then
      MMWave_populateChannelCfg_txLoop rest
        { gSysContext with numTxAntennas := gSysContext.numTxAntennas + 1 }
    else MMWave_populateChannelCfg_txLoop rest gSysContext

/-- Lines 341-345: the loop over `i = 0 .. SYS_COMMON_NUM_RX_CHANNEL - 1`. -/
def MMWave_populateChannelCfg_rxLoop : List Nat → SysContext → SysContext
  | [], gSysContext => gSysContext
  | i :: rest, gSysContext =>
    if (gSysContext.channelCfg.h_RxChCtrlBitMask >>> i) &&& 0x1 ≠ 0 then
      MMWave_populateChannelCfg_rxLoop rest
        { gSysContext with numRxAntennas := gSysContext.numRxAntennas + 1 }
    else MMWave_populateChannelCfg_rxLoop rest gSysContext

/-- The function `MMWave_populateChannelCfg` (lines 327-349). The bitmasks are
16-bit fields and `c_MiscCtrl` is an 8-bit field; the counters never exceed 16
and are kept as natural numbers. For antenna limits up to 32 every shift is
within the width of the shifted operand. -/
def MMWave_populateChannelCfg (k : ChannelDefines) (gSysContext : SysContext) : SysContext :=
  let gSysContext :=
    { gSysContext with channelCfg.h_TxChCtrlBitMask := k.CLI_CHA_CFG_TX_BITMASK % 65536 }
  let gSysContext :=
    { gSysContext with channelCfg.h_RxChCtrlBitMask := k.CLI_CHA_CFG_RX_BITMASK % 65536 }
  let gSysContext := { gSysContext with channelCfg.c_MiscCtrl := k.CLI_CHA_CFG_MISC_CTRL % 256 }
  let gSysContext := { gSysContext with numTxAntennas := 0 }
  let gSysContext := { gSysContext with numRxAntennas := 0 }
  let gSysContext :=
    MMWave_populateChannelCfg_txLoop (List.range k.SYS_COMMON_NUM_TX_ANTENNAS) gSysContext
  MMWave_populateChannelCfg_rxLoop (List.range k.SYS_COMMON_NUM_RX_CHANNEL) gSysContext

/-- The number of set bits among the low `n` bits of `mask`. -/
def setBitsBelow (mask n : Nat) : Nat :=
  ((List.range n).filter (fun i => mask.testBit i)).length

/-! ## ADC buffer registers -/

/-- Mask and shift of a register field, as the `_MASK` and `_SHIFT` macros of
the register header give them. -/
structure CslField where
  MASK : Nat
  SHIFT : Nat
deriving DecidableEq, Repr

/-- The register fields that `Mmwave_ADCBufConfig` writes: three enable bits
in `ADCBUFCFG1`, two address fields in `ADCBUFCFG2` and one in `ADCBUFCFG3`. -/
inductive AdcBufField where
  | ADCBUFCFG1_RX0EN
  | ADCBUFCFG1_RX1EN
  | ADCBUFCFG1_RX2EN
  | ADCBUFCFG2_ADCBUFADDRX0
  | ADCBUFCFG2_ADCBUFADDRX1
  | ADCBUFCFG3_ADCBUFADDRX2
deriving DecidableEq, Repr

/-- The three registers of `CSL_app_hwa_adcbuf_ctrlRegs` that are written. -/
structure CSL_app_hwa_adcbuf_ctrlRegs where
  ADCBUFCFG1 : Nat
  ADCBUFCFG2 : Nat
  ADCBUFCFG3 : Nat
deriving DecidableEq, Repr

/-- The field-make macro `CSL_FMK`: `(val << SHIFT) & MASK` on 32-bit
words. -/
def CSL_FMK (f : CslField) (val : Nat) : Nat :=
  ((val <<< f.SHIFT) % 2 ^ 32) &&& f.MASK

/-- The field-insert macro `CSL_FINS`: the new value of the register,
`(reg & ~MASK) | ((val << SHIFT) & MASK)` on 32-bit words. -/
def CSL_FINS (reg : Nat) (f : CslField) (val : Nat) : Nat :=
  (reg &&& (0xFFFFFFFF ^^^ f.MASK)) ||| CSL_FMK f val

/-- The field-extract macro `CSL_FEXT`: `(reg & MASK) >> SHIFT`. -/
def CSL_FEXT (reg : Nat) (f : CslField) : Nat :=
  (reg &&& f.MASK) >>> f.SHIFT

/-- The registers together with the field insertions made so far, each with
the value handed to the insertion. -/
structure AdcBufState where
  regs : CSL_app_hwa_adcbuf_ctrlRegs
  writes : List (AdcBufField × Nat)
deriving DecidableEq, Repr

/-- A field insertion into `ADCBUFCFG1`. -/
def finsADCBUFCFG1 (h : AdcBufField → CslField) (f : AdcBufField) (val : Nat)
    (st : AdcBufState) : AdcBufState :=
  { regs := { st.regs with ADCBUFCFG1 := CSL_FINS st.regs.ADCBUFCFG1 (h f) val }
    writes := st.writes ++ [(f, val)] }

/-- A field insertion into `ADCBUFCFG2`. -/
def finsADCBUFCFG2 (h : AdcBufField → CslField) (f : AdcBufField) (val : Nat)
    (st : AdcBufState) : AdcBufState :=
  { regs := { st.regs with ADCBUFCFG2 := CSL_FINS st.regs.ADCBUFCFG2 (h f) val }
    writes := st.writes ++ [(f, val)] }

/-- A field insertion into `ADCBUFCFG3`. -/
def finsADCBUFCFG3 (h : AdcBufField → CslField) (f : AdcBufField) (val : Nat)
    (st : AdcBufState) : AdcBufState :=
  { regs := { st.regs with ADCBUFCFG3 := CSL_FINS st.regs.ADCBUFCFG3 (h f) val }
    writes := st.writes ++ [(f, val)] }

/-- The function `Mmwave_EnChannelSetOffset` (lines 238-283). The result is
`none` when the `default` branch is taken and `DebugP_assert(0)` fails. -/
def Mmwave_EnChannelSetOffset (h : AdcBufField → CslField) (st : AdcBufState)
    (channel : Nat) (offset : Nat) : Option AdcBufState :=
  match channel with
  | 0 =>
    let st := finsADCBUFCFG1 h AdcBufField.ADCBUFCFG1_RX0EN 1 st
    some (finsADCBUFCFG2 h AdcBufField.ADCBUFCFG2_ADCBUFADDRX0 (offset >>> 4) st)
  | 1 =>
    let st := finsADCBUFCFG1 h AdcBufField.ADCBUFCFG1_RX1EN 1 st
    some (finsADCBUFCFG2 h AdcBufField.ADCBUFCFG2_ADCBUFADDRX1 (offset >>> 4) st)
  | 2 =>
    let st := finsADCBUFCFG1 h AdcBufField.ADCBUFCFG1_RX2EN 1 st
    some (finsADCBUFCFG3 h AdcBufField.ADCBUFCFG3_ADCBUFADDRX2 (offset >>> 4) st)
  | _ => none

/-- Lines 309-317 of `Mmwave_ADCBufConfig`: the loop over the channels still
to run, with the current 16-bit `offset`. The update `offset += chanDataSize`
adds in 32 bits and stores into 16 bits. -/
def Mmwave_ADCBufConfig_loop (h : AdcBufField → CslField) (rxChannelEn chanDataSize : Nat) :
    List Nat → Nat → AdcBufState → Option AdcBufState
  | [], _, st => some st
  | channel :: rest, offset, st =>
    if rxChannelEn &&& (0x1 <<< channel) ≠ 0 then
      match Mmwave_EnChannelSetOffset h st channel offset with
      | none => none
      | some st =>
        Mmwave_ADCBufConfig_loop h rxChannelEn chanDataSize rest
          ((offset + chanDataSize) % 2 ^ 32 % 2 ^ 16) st
    else Mmwave_ADCBufConfig_loop h rxChannelEn chanDataSize rest offset st

/-- The function `Mmwave_ADCBufConfig` (lines 294-320), started on the
registers `regs` with `SYS_COMMON_NUM_RX_CHANNEL = numRxChannel` (at most 255,
so that the 8-bit `channel` runs through `0 .. numRxChannel - 1`). -/
def Mmwave_ADCBufConfig (h : AdcBufField → CslField) (numRxChannel : Nat)
    (regs : CSL_app_hwa_adcbuf_ctrlRegs) (rxChannelEn chanDataSize : Nat) :
    Option AdcBufState :=
  let st : AdcBufState := { regs := regs, writes := [] }
  let st := finsADCBUFCFG1 h AdcBufField.ADCBUFCFG1_RX0EN 0 st
  let st := finsADCBUFCFG1 h AdcBufField.ADCBUFCFG1_RX1EN 0 st
  let st := finsADCBUFCFG1 h AdcBufField.ADCBUFCFG1_RX2EN 0 st
  Mmwave_ADCBufConfig_loop h rxChannelEn chanDataSize (List.range numRxChannel) 0 st

/-- The address field that `Mmwave_EnChannelSetOffset` programs for a
channel. -/
def addrField : Nat → AdcBufField
  | 0 => AdcBufField.ADCBUFCFG2_ADCBUFADDRX0
  | 1 => AdcBufField.ADCBUFCFG2_ADCBUFADDRX1
  | _ => AdcBufField.ADCBUFCFG3_ADCBUFADDRX2

/-- The values handed to the insertions into field `f`, in program order. -/
def writesTo (f : AdcBufField) : List (AdcBufField × Nat) → List Nat
  | [] => []
  | (g, val) :: rest => if g = f then val :: writesTo f rest else writesTo f rest

/-- The layout assumed of the three enable fields: each is a single bit of a
32-bit register (`MASK = 1 << SHIFT`, `SHIFT < 32`) and the three bit
positions are different. -/
def EnableFieldsAreDistinctBits (h : AdcBufField → CslField) : Prop :=
  ((h AdcBufField.ADCBUFCFG1_RX0EN).MASK = 1 <<< (h AdcBufField.ADCBUFCFG1_RX0EN).SHIFT ∧
    (h AdcBufField.ADCBUFCFG1_RX1EN).MASK = 1 <<< (h AdcBufField.ADCBUFCFG1_RX1EN).SHIFT ∧
    (h AdcBufField.ADCBUFCFG1_RX2EN).MASK = 1 <<< (h AdcBufField.ADCBUFCFG1_RX2EN).SHIFT) ∧
  ((h AdcBufField.ADCBUFCFG1_RX0EN).SHIFT < 32 ∧
    (h AdcBufField.ADCBUFCFG1_RX1EN).SHIFT < 32 ∧
    (h AdcBufField.ADCBUFCFG1_RX2EN).SHIFT < 32) ∧
  ((h AdcBufField.ADCBUFCFG1_RX0EN).SHIFT ≠ (h AdcBufField.ADCBUFCFG1_RX1EN).SHIFT ∧
    (h AdcBufField.ADCBUFCFG1_RX0EN).SHIFT ≠ (h AdcBufField.ADCBUFCFG1_RX2EN).SHIFT ∧
    (h AdcBufField.ADCBUFCFG1_RX1EN).SHIFT ≠ (h AdcBufField.ADCBUFCFG1_RX2EN).SHIFT)

/-- The register that holds the address field of a channel: `ADCBUFCFG2` for
channels 0 and 1, `ADCBUFCFG3` for channel 2. -/
def addrReg (channel : Nat) (regs : CSL_app_hwa_adcbuf_ctrlRegs) : Nat :=
  match channel with
  | 0 => regs.ADCBUFCFG2
  | 1 => regs.ADCBUFCFG2
  | _ => regs.ADCBUFCFG3

/-- The layout assumed of the three address fields: each is a run of `width`
bits inside a 32-bit register (`MASK = (2^width - 1) << SHIFT`,
`SHIFT + width <= 32`), and the two fields of `ADCBUFCFG2` do not overlap. -/
def AddressFieldsAreRuns (h : AdcBufField → CslField) (width : Nat) : Prop :=
  ((h AdcBufField.ADCBUFCFG2_ADCBUFADDRX0).MASK
      = (2 ^ width - 1) <<< (h AdcBufField.ADCBUFCFG2_ADCBUFADDRX0).SHIFT ∧
    (h AdcBufField.ADCBUFCFG2_ADCBUFADDRX1).MASK
      = (2 ^ width - 1) <<< (h AdcBufField.ADCBUFCFG2_ADCBUFADDRX1).SHIFT ∧
    (h AdcBufField.ADCBUFCFG3_ADCBUFADDRX2).MASK
      = (2 ^ width - 1) <<< (h AdcBufField.ADCBUFCFG3_ADCBUFADDRX2).SHIFT) ∧
  ((h AdcBufField.ADCBUFCFG2_ADCBUFADDRX0).SHIFT + width ≤ 32 ∧
    (h AdcBufField.ADCBUFCFG2_ADCBUFADDRX1).SHIFT + width ≤ 32 ∧
    (h AdcBufField.ADCBUFCFG3_ADCBUFADDRX2).SHIFT + width ≤ 32) ∧
  ((h AdcBufField.ADCBUFCFG2_ADCBUFADDRX0).SHIFT + width
      ≤ (h AdcBufField.ADCBUFCFG2_ADCBUFADDRX1).SHIFT ∨
    (h AdcBufField.ADCBUFCFG2_ADCBUFADDRX1).SHIFT + width
      ≤ (h AdcBufField.ADCBUFCFG2_ADCBUFADDRX0).SHIFT)

/-! ## Profile configuration -/

/-- Build-time constants that `Mmwave_populateDefaultProfileCfg` takes from
`defines.h`, which is not among the sources. They are parameters of the
embedding. `CLI_CHIRP_SLOPE` stands for the constant as an integer, and
`crdNSlopeMag rampEnd idle` for the value of the floating-point expression of
lines 113-115 after `fabs` and its conversion to an integer. -/
structure ProfileDefines where
  CLI_DIG_OUT_SAMPLING_RATE : Nat
  CLI_DIG_OUT_BITS_SEL : Nat
  CLI_DFE_FIR_SEL : Nat
  CLI_NUM_ADC_SAMPLES : Nat
  CLI_MIMO_SEL : Nat
  CLI_C_MISC_SETTINGS : Nat
  CLI_HPF_FAST_INIT_DURATION : Nat
  CLI_CHIRP_RAMP_END_TIME : Nat
  CLI_CHIRP_RX_HPF_SEL : Nat
  CLI_CHIRP_IDLE_TIME : Nat
  CLI_CHIRP_ADC_START_TIME : Nat
  CLI_CHIRP_TX_START_TIME : Int
  CLI_CHIRP_SLOPE : Int
  CLI_CHIRP_START_FREQ : Nat
  CLI_CHIRP_FREQ_SLOPE : Int
  crdNSlopeMag : Nat → Nat → Nat

/-- Conversion of an integer to a signed 16-bit field (two's complement). -/
def toInt16 (x : Int) : Int :=
  (x + 32768) % 65536 - 32768

/-- The fields of `T_RL_API_SENS_CHIRP_PROF_COMN_CFG` that
`Mmwave_populateDefaultProfileCfg` assigns. -/
structure T_RL_API_SENS_CHIRP_PROF_COMN_CFG where
  c_DigOutputSampRate : Nat
  c_DigOutputBitsSel : Nat
  c_DfeFirSel : Nat
  c_VcoMultiChipMode : Nat
  h_NumOfAdcSamples : Nat
  c_ChirpTxMimoPatSel : Nat
  c_MiscSettings : Nat
  c_HpfFastInitDuration : Nat
  h_CrdNSlopeMag : Nat
  h_ChirpRampEndTime : Nat
  c_ChirpRxHpfSel : Nat
deriving DecidableEq, Repr

/-- The fields of `T_RL_API_SENS_CHIRP_PROF_TIME_CFG` that
`Mmwave_populateDefaultProfileCfg` assigns. -/
structure T_RL_API_SENS_CHIRP_PROF_TIME_CFG where
  h_ChirpIdleTime : Nat
  h_ChirpAdcStartTime : Nat
  xh_ChirpTxStartTime : Int
  xh_ChirpRfFreqSlope : Int
  w_ChirpRfFreqStart : Nat
  h_ChirpTxEnSel : Nat
  h_ChirpTxBpmEnSel : Nat
deriving DecidableEq, Repr

/-- The result of `memset` to zero on a common profile configuration. -/
def T_RL_API_SENS_CHIRP_PROF_COMN_CFG.zero : T_RL_API_SENS_CHIRP_PROF_COMN_CFG :=
  { c_DigOutputSampRate := 0, c_DigOutputBitsSel := 0, c_DfeFirSel := 0
    c_VcoMultiChipMode := 0, h_NumOfAdcSamples := 0, c_ChirpTxMimoPatSel := 0
    c_MiscSettings := 0, c_HpfFastInitDuration := 0, h_CrdNSlopeMag := 0
    h_ChirpRampEndTime := 0, c_ChirpRxHpfSel := 0 }

/-- The result of `memset` to zero on a profile time configuration. -/
def T_RL_API_SENS_CHIRP_PROF_TIME_CFG.zero : T_RL_API_SENS_CHIRP_PROF_TIME_CFG :=
  { h_ChirpIdleTime := 0, h_ChirpAdcStartTime := 0, xh_ChirpTxStartTime := 0
    xh_ChirpRfFreqSlope := 0, w_ChirpRfFreqStart := 0, h_ChirpTxEnSel := 0
    h_ChirpTxBpmEnSel := 0 }

/-- The profile part of the process-wide `gSysContext`, with every field that
`Mmwave_populateDefaultProfileCfg` touches. -/
structure ProfileState where
  profileComCfg : T_RL_API_SENS_CHIRP_PROF_COMN_CFG
  profileTimeCfg : T_RL_API_SENS_CHIRP_PROF_TIME_CFG
deriving DecidableEq, Repr

/-- What `Mmwave_populateDefaultProfileCfg` leaves behind: the global profile
state and the two structures behind its pointer arguments. -/
structure ProfileOutcome where
  gSysContext : ProfileState
  ptrProfileCfg : T_RL_API_SENS_CHIRP_PROF_COMN_CFG
  ptrProfileTimeCfg : T_RL_API_SENS_CHIRP_PROF_TIME_CFG
deriving DecidableEq, Repr

/-- Lines 93-101 of `Mmwave_populateDefaultProfileCfg`: the assignments to
`gSysContext.profileComCfg`. Fields with prefix `c_` are 8 bits wide and
fields with prefix `h_` 16 bits. -/
def Mmwave_populateDefaultProfileCfg_comCfg (k : ProfileDefines)
    (profileComCfg : T_RL_API_SENS_CHIRP_PROF_COMN_CFG) : T_RL_API_SENS_CHIRP_PROF_COMN_CFG :=
  let p := profileComCfg
  let p := { p with c_DigOutputSampRate := k.CLI_DIG_OUT_SAMPLING_RATE % 256 }
  let p := { p with c_DigOutputBitsSel := k.CLI_DIG_OUT_BITS_SEL % 256 }
  let p := { p with c_DfeFirSel := k.CLI_DFE_FIR_SEL % 256 }
  let p := { p with h_NumOfAdcSamples := k.CLI_NUM_ADC_SAMPLES % 65536 }
  let p := { p with c_ChirpTxMimoPatSel := k.CLI_MIMO_SEL % 256 }
  let p := { p with c_MiscSettings := k.CLI_C_MISC_SETTINGS % 256 }
  let p := { p with c_HpfFastInitDuration := k.CLI_HPF_FAST_INIT_DURATION % 256 }
  let p := { p with h_ChirpRampEndTime := k.CLI_CHIRP_RAMP_END_TIME % 65536 }
  { p with c_ChirpRxHpfSel := k.CLI_CHIRP_RX_HPF_SEL % 256 }

/-- Lines 104-111 of `Mmwave_populateDefaultProfileCfg`: the assignments to
`gSysContext.profileTimeCfg`. Fields with prefix `xh_` are signed 16 bits and
`w_` 32 bits wide. -/
def Mmwave_populateDefaultProfileCfg_timeCfg (k : ProfileDefines) (c : ChannelDefines)
    (profileTimeCfg : T_RL_API_SENS_CHIRP_PROF_TIME_CFG) : T_RL_API_SENS_CHIRP_PROF_TIME_CFG :=
  let t := profileTimeCfg
  let t := { t with h_ChirpIdleTime := k.CLI_CHIRP_IDLE_TIME % 65536 }
  let t := { t with h_ChirpAdcStartTime := k.CLI_CHIRP_ADC_START_TIME % 65536 }
  let t := { t with xh_ChirpTxStartTime := toInt16 k.CLI_CHIRP_TX_START_TIME }
  let t := { t with xh_ChirpRfFreqSlope := toInt16 k.CLI_CHIRP_SLOPE }
  let t := { t with w_ChirpRfFreqStart := k.CLI_CHIRP_START_FREQ % 2 ^ 32 }
  let t := { t with h_ChirpTxEnSel := c.CLI_CHA_CFG_TX_BITMASK % 65536 }
  { t with h_ChirpTxBpmEnSel := 0x0 }

/-- Lines 93-117 of `Mmwave_populateDefaultProfileCfg`: the global profile
state after the assignments, the computed `h_CrdNSlopeMag` (lines 113-115) and
the second assignment of the frequency slope (line 117). -/
def Mmwave_populateDefaultProfileCfg_global (k : ProfileDefines) (c : ChannelDefines)
    (gSysContext : ProfileState) : ProfileState :=
  let profileComCfg := Mmwave_populateDefaultProfileCfg_comCfg k gSysContext.profileComCfg
  let profileTimeCfg := Mmwave_populateDefaultProfileCfg_timeCfg k c gSysContext.profileTimeCfg
  let profileComCfg :=
    { profileComCfg with
      h_CrdNSlopeMag :=
        k.crdNSlopeMag profileComCfg.h_ChirpRampEndTime profileTimeCfg.h_ChirpIdleTime % 65536 }
  let profileTimeCfg :=
    { profileTimeCfg with xh_ChirpRfFreqSlope := toInt16 k.CLI_CHIRP_FREQ_SLOPE }
  { profileComCfg := profileComCfg, profileTimeCfg := profileTimeCfg }

/-- Lines 121-137 of `Mmwave_populateDefaultProfileCfg`: `*ptrProfileCfg` is
cleared by `memset` and filled from `gSysContext.profileComCfg`. -/
def Mmwave_populateDefaultProfileCfg_ptrProfileCfg (gSysContext : ProfileState)
    (ptrProfileCfg : T_RL_API_SENS_CHIRP_PROF_COMN_CFG) : T_RL_API_SENS_CHIRP_PROF_COMN_CFG :=
  let p := (fun _ => T_RL_API_SENS_CHIRP_PROF_COMN_CFG.zero) ptrProfileCfg
  let p := { p with c_DigOutputSampRate := gSysContext.profileComCfg.c_DigOutputSampRate }
  let p := { p with c_DigOutputBitsSel := gSysContext.profileComCfg.c_DigOutputBitsSel }
  let p := { p with c_DfeFirSel := gSysContext.profileComCfg.c_DfeFirSel }
  let p := { p with c_VcoMultiChipMode := 0 }
  let p := { p with h_NumOfAdcSamples := gSysContext.profileComCfg.h_NumOfAdcSamples }
  let p := { p with c_ChirpTxMimoPatSel := gSysContext.profileComCfg.c_ChirpTxMimoPatSel }
  let p := { p with c_MiscSettings := gSysContext.profileComCfg.c_MiscSettings }
  let p := { p with c_HpfFastInitDuration := gSysContext.profileComCfg.c_HpfFastInitDuration }
  let p := { p with h_CrdNSlopeMag := gSysContext.profileComCfg.h_CrdNSlopeMag }
  let p := { p with h_ChirpRampEndTime := gSysContext.profileComCfg.h_ChirpRampEndTime }
  { p with c_ChirpRxHpfSel := gSysContext.profileComCfg.c_ChirpRxHpfSel }

/-- Lines 145-157 of `Mmwave_populateDefaultProfileCfg`: `*ptrProfileTimeCfg`
is cleared by `memset` and filled from `gSysContext.profileTimeCfg`. -/
def Mmwave_populateDefaultProfileCfg_ptrProfileTimeCfg (gSysContext : ProfileState)
    (ptrProfileTimeCfg : T_RL_API_SENS_CHIRP_PROF_TIME_CFG) :
    T_RL_API_SENS_CHIRP_PROF_TIME_CFG :=
  let t := (fun _ => T_RL_API_SENS_CHIRP_PROF_TIME_CFG.zero) ptrProfileTimeCfg
  let t := { t with h_ChirpIdleTime := gSysContext.profileTimeCfg.h_ChirpIdleTime }
  let t := { t with h_ChirpAdcStartTime := gSysContext.profileTimeCfg.h_ChirpAdcStartTime }
  let t := { t with xh_ChirpTxStartTime := gSysContext.profileTimeCfg.xh_ChirpTxStartTime }
  let t := { t with xh_ChirpRfFreqSlope := gSysContext.profileTimeCfg.xh_ChirpRfFreqSlope }
  let t := { t with w_ChirpRfFreqStart := gSysContext.profileTimeCfg.w_ChirpRfFreqStart }
  let t := { t with h_ChirpTxEnSel := gSysContext.profileTimeCfg.h_ChirpTxEnSel }
  { t with h_ChirpTxBpmEnSel := gSysContext.profileTimeCfg.h_ChirpTxBpmEnSel }

/-- The function `Mmwave_populateDefaultProfileCfg` (lines 87-158).
`ptrProfileCfg` and `ptrProfileTimeCfg` are the contents of the two output
structures on entry. -/
def Mmwave_populateDefaultProfileCfg (k : ProfileDefines) (c : ChannelDefines)
    (gSysContext : ProfileState) (ptrProfileCfg : T_RL_API_SENS_CHIRP_PROF_COMN_CFG)
    (ptrProfileTimeCfg : T_RL_API_SENS_CHIRP_PROF_TIME_CFG) : ProfileOutcome :=
  let gSysContext := Mmwave_populateDefaultProfileCfg_global k c gSysContext
  { gSysContext := gSysContext
    ptrProfileCfg := Mmwave_populateDefaultProfileCfg_ptrProfileCfg gSysContext ptrProfileCfg
    ptrProfileTimeCfg :=
      Mmwave_populateDefaultProfileCfg_ptrProfileTimeCfg gSysContext ptrProfileTimeCfg }

/-! ## Sample inputs -/

/-- Sample field layout: the enable bits at bits 6, 7 and 8 of `ADCBUFCFG1`,
eleven-bit address fields at bits 0 and 16. -/
def sampleFields : AdcBufField → CslField
  | AdcBufField.ADCBUFCFG1_RX0EN => { MASK := 0x40, SHIFT := 6 }
  | AdcBufField.ADCBUFCFG1_RX1EN => { MASK := 0x80, SHIFT := 7 }
  | AdcBufField.ADCBUFCFG1_RX2EN => { MASK := 0x100, SHIFT := 8 }
  | AdcBufField.ADCBUFCFG2_ADCBUFADDRX0 => { MASK := 0x7FF, SHIFT := 0 }
  | AdcBufField.ADCBUFCFG2_ADCBUFADDRX1 => { MASK := 0x7FF0000, SHIFT := 16 }
  | AdcBufField.ADCBUFCFG3_ADCBUFADDRX2 => { MASK := 0x7FF, SHIFT := 0 }

/-- Sample register contents before the call: every bit of every register
set. -/
def sampleRegs : CSL_app_hwa_adcbuf_ctrlRegs :=
  { ADCBUFCFG1 := 0xFFFFFFFF, ADCBUFCFG2 := 0xFFFFFFFF, ADCBUFCFG3 := 0xFFFFFFFF }

/-- Sample profile constants; `crdNSlopeMag` is an integer stand-in for the
floating-point expression of lines 113-115 with slope 35: the ramp-down time
is the idle time less 1 us, at most 6 us, and one half is added before the
value is cut to an integer. -/
def sampleProfileDefines : ProfileDefines :=
  { CLI_DIG_OUT_SAMPLING_RATE := 23
    CLI_DIG_OUT_BITS_SEL := 0
    CLI_DFE_FIR_SEL := 0
    CLI_NUM_ADC_SAMPLES := 128
    CLI_MIMO_SEL := 4
    CLI_C_MISC_SETTINGS := 0
    CLI_HPF_FAST_INIT_DURATION := 15
    CLI_CHIRP_RAMP_END_TIME := 361
    CLI_CHIRP_RX_HPF_SEL := 1
    CLI_CHIRP_IDLE_TIME := 80
    CLI_CHIRP_ADC_START_TIME := 300
    CLI_CHIRP_TX_START_TIME := 0
    CLI_CHIRP_SLOPE := 35
    CLI_CHIRP_START_FREQ := 50347
    CLI_CHIRP_FREQ_SLOPE := 419
    crdNSlopeMag := fun rampEnd idle =>
      (2 * 65536 * rampEnd * 35 + 30000 * min (idle - 10) 60) / (2 * 30000 * min (idle - 10) 60) }

/-- Sample profile state before the call, with every field at 9. -/
def sampleProfileState : ProfileState :=
  { profileComCfg :=
      { c_DigOutputSampRate := 9, c_DigOutputBitsSel := 9, c_DfeFirSel := 9
        c_VcoMultiChipMode := 9, h_NumOfAdcSamples := 9, c_ChirpTxMimoPatSel := 9
        c_MiscSettings := 9, c_HpfFastInitDuration := 9, h_CrdNSlopeMag := 9
        h_ChirpRampEndTime := 9, c_ChirpRxHpfSel := 9 }
    profileTimeCfg :=
      { h_ChirpIdleTime := 9, h_ChirpAdcStartTime := 9, xh_ChirpTxStartTime := 9
        xh_ChirpRfFreqSlope := 9, w_ChirpRfFreqStart := 9, h_ChirpTxEnSel := 9
        h_ChirpTxBpmEnSel := 9 } }

/-- Sample channel constants: two TX antennas, three RX channels. -/
def sampleChannelDefines : ChannelDefines :=
  { CLI_CHA_CFG_TX_BITMASK := 0x3
    CLI_CHA_CFG_RX_BITMASK := 0x7
    CLI_CHA_CFG_MISC_CTRL := 0
    SYS_COMMON_NUM_TX_ANTENNAS := 2
    SYS_COMMON_NUM_RX_CHANNEL := 3 }

end ControlConfig

/-!
# UART frame streaming (`uart_transmit.c`)

A shallow embedding of `uart_transmit_loop` from
`person_detection_sdk-05_05_03/src/uart_transmit.c`. The function never
returns: it waits for the start semaphore, sends one frame and posts the done
semaphore, for ever. The embedding gives the body of the `while (true)` loop
as a function on the trace of steps made so far, and the loop as the
iteration of that body.
-/

namespace UartTransmit

open FactoryCal (SystemP_SUCCESS)

/-- The buffers a UART transaction can point at: `gUartBuffer`, the constant
`header` and `footer` arrays, and element `index` of `radarCube`. -/
inductive Buf where
  | gUartBuffer
  | header
  | footer
  | radarCube (index : Nat)
deriving DecidableEq, Repr

/-- The constant `header` of line 22. -/
def header : List Nat := [0xAA, 0xBB, 0xCC, 0xDD]

/-- The constant `footer` of line 23. -/
def footer : List Nat := [0xDD, 0xCC, 0xBB, 0xAA]

/-- Steps of the transmit loop: waiting for the start semaphore, a
`UART_write` of `count` bytes from `buf` with its returned status, a log
line, and the post of the done semaphore. -/
inductive Event where
  | pend
  | write (buf : Buf) (count : Nat) (transferOK : Int)
  | log
  | post
deriving DecidableEq, Repr

/-- Line 62: the expression for `address_offset`. The three operands are
8-bit values, the arithmetic is done in `int` and the result is stored in a
32-bit unsigned variable. -/
def address_offset (chirp_index antenna_index rangebin_index : Nat) : Nat :=
  ((chirp_index * antenna_index * rangebin_index) + (antenna_index * rangebin_index)
    + rangebin_index) % 2 ^ 32

/-- A `UART_write` of `count` bytes from `buf` followed by the status check
(lines 46-49, 66-69, 75-78). The status may depend on everything that
happened before. -/
def uartWrite (UART_write : List Event → Buf → Nat → Int) (buf : Buf) (count : Nat)
    (trace : List Event) : List Event :=
  let transferOK := UART_write trace buf count
  let trace := trace ++ [Event.write buf count transferOK]
  if transferOK ≠ SystemP_SUCCESS then trace ++ [Event.log] else trace

/-- Lines 53-70: the data loop, given as the list of the values of `i` still
to run. `rangebin_index` is `i` stored in 8 bits. -/
def uart_transmit_loop_data (UART_write : List Event → Buf → Nat → Int) :
    List Nat → List Event → List Event
  | [], trace => trace
  | i :: rest, trace =>
    let chirp_index := 1
    let antenna_index := 0
    let rangebin_index := i % 256
    let address_offset := address_offset chirp_index antenna_index rangebin_index
    let trace := uartWrite UART_write (Buf.radarCube address_offset) 4 trace
    uart_transmit_loop_data UART_write rest trace

/-- Lines 38-80: one pass through the body of the `while (true)` loop, for a
build with `NUM_RANGE_BINS` range bins (below `2^32`, the range of `i`). -/
def uart_transmit_loop_body (NUM_RANGE_BINS : Nat)
    (UART_write : List Event → Buf → Nat → Int) (trace : List Event) : List Event :=
  let trace := trace ++ [Event.pend]
  let trace := uartWrite UART_write Buf.header 4 trace
  let trace := uart_transmit_loop_data UART_write (List.range NUM_RANGE_BINS) trace
  let trace := uartWrite UART_write Buf.footer 4 trace
  trace ++ [Event.post]

/-- The function `uart_transmit_loop` (lines 28-82) up to the end of its
`frames`-th pass through the loop body. -/
def uart_transmit_loop (NUM_RANGE_BINS : Nat) (UART_write : List Event → Buf → Nat → Int) :
    Nat → List Event
  | 0 => []
  | frames + 1 =>
    uart_transmit_loop_body NUM_RANGE_BINS UART_write
      (uart_transmit_loop NUM_RANGE_BINS UART_write frames)

/-- The buffer and byte count of each `UART_write` of a trace, in order. -/
def requests : List Event → List (Buf × Nat)
  | [] => []
  | Event.write buf count _ :: rest => (buf, count) :: requests rest
  | _ :: rest => requests rest

/-- The number of `UART_write` calls of a trace that did not return
`SystemP_SUCCESS`. -/
def failedWrites : List Event → Nat
  | [] => 0
  | Event.write _ _ transferOK :: rest =>
    (if transferOK ≠ SystemP_SUCCESS then 1 else 0) + failedWrites rest
  | _ :: rest => failedWrites rest

/-- The number of log lines of a trace. -/
def logCount : List Event → Nat
  | [] => 0
  | Event.log :: rest => 1 + logCount rest
  | _ :: rest => logCount rest

/-- The number of posts of the done semaphore in a trace. -/
def postCount : List Event → Nat
  | [] => 0
  | Event.post :: rest => 1 + postCount rest
  | _ :: rest => postCount rest

/-- The number of waits for the start semaphore in a trace. -/
def pendCount : List Event → Nat
  | [] => 0
  | Event.pend :: rest => 1 + pendCount rest
  | _ :: rest => pendCount rest

/-- The linear index of element `X[c][a][r]` of a cube laid out row-major as
`X[chirp][antenna][range]`, with `numAntennas` antennas and `numRangeBins`
range bins. -/
def rowMajorIndex (numAntennas numRangeBins c a r : Nat) : Nat :=
  (c * numAntennas + a) * numRangeBins + r

/-- Sample UART behaviour: every write succeeds. -/
def uartAlwaysOk : List Event → Buf → Nat → Int :=
  fun _ _ _ => SystemP_SUCCESS

/-- Sample UART behaviour: every write fails. -/
def uartAlwaysFails : List Event → Buf → Nat → Int :=
  fun _ _ _ => -1

end UartTransmit

/-!
# Sensor teardown (`mmwave_basic.c`)

A shallow embedding of `mmwave_stop_close_deinit` from
`person_detection_sdk-05_05_03/src/mmwave_basic.c`, with the control library
calls as an environment of functions and a trace of the calls made.
-/

namespace MmwaveBasic

open FactoryCal (SystemP_SUCCESS SystemP_FAILURE SysContext)

/-- The library calls of `mmwave_stop_close_deinit`. Each of `MMWave_stop`,
`MMWave_close` and `MMWave_deinit` takes the control handle and gives its
return value and the error code it stores; `MMWave_decodeError errCode` gives
`(errorLevel, mmWaveErrorCode, subsysErrorCode)`. -/
structure Env where
  MMWave_stop : Nat → Int × Int
  MMWave_close : Nat → Int × Int
  MMWave_deinit : Nat → Int × Int
  MMWave_decodeError : Int → Int × Int × Int

/-- The log lines of `mmwave_stop_close_deinit` (lines 227, 238, 249), each
with the decoded mmWave and subsystem error codes. -/
inductive LogMsg where
  | stopFailed (mmWaveErrorCode subsysErrorCode : Int)
  | closeFailed (mmWaveErrorCode subsysErrorCode : Int)
  | deinitFailed (mmWaveErrorCode subsysErrorCode : Int)
deriving DecidableEq, Repr

/-- Steps of a teardown, in program order. -/
inductive Event where
  | stop (handle : Nat)
  | close (handle : Nat)
  | deinit (handle : Nat)
  | decodeError (errCode : Int)
  | log (msg : LogMsg)
deriving DecidableEq, Repr

/-- The function `mmwave_stop_close_deinit` (lines 217-255): the returned
value and the trace. -/
def mmwave_stop_close_deinit (env : Env) (gSysContext : SysContext) : Int × List Event :=
  let retVal := SystemP_SUCCESS
  let trace : List Event := []
  -- lines 221-230
  let r := env.MMWave_stop gSysContext.gCtrlHandle
  let trace := trace ++ [Event.stop gSysContext.gCtrlHandle]
  let st : Int × List Event :=
    if r.1 < 0 then
      let dec := env.MMWave_decodeError r.2
      (SystemP_FAILURE,
        trace ++ [Event.decodeError r.2, Event.log (LogMsg.stopFailed dec.2.1 dec.2.2)])
    else (retVal, trace)
  let retVal := st.1
  let trace := st.2
  -- lines 232-241
  let r := env.MMWave_close gSysContext.gCtrlHandle
  let trace := trace ++ [Event.close gSysContext.gCtrlHandle]
  let st : Int × List Event :=
    if r.1 < 0 then
      let dec := env.MMWave_decodeError r.2
      (SystemP_FAILURE,
        trace ++ [Event.decodeError r.2, Event.log (LogMsg.closeFailed dec.2.1 dec.2.2)])
    else (retVal, trace)
  let retVal := st.1
  let trace := st.2
  -- lines 243-252
  let r := env.MMWave_deinit gSysContext.gCtrlHandle
  let trace := trace ++ [Event.deinit gSysContext.gCtrlHandle]
  let st : Int × List Event :=
    if r.1 < 0 then
      let dec := env.MMWave_decodeError r.2
      (SystemP_FAILURE,
        trace ++ [Event.decodeError r.2, Event.log (LogMsg.deinitFailed dec.2.1 dec.2.2)])
    else (retVal, trace)
  st

/-- The teardown calls of a trace, in order, without the decoder calls and
the log lines. -/
def teardownCalls : List Event → List Event
  | [] => []
  | Event.decodeError _ :: rest => teardownCalls rest
  | Event.log _ :: rest => teardownCalls rest
  | e :: rest => e :: teardownCalls rest

/-- Sample library behaviour: the three calls return `stop`, `close` and
`deinit` with error code `-9`, decoded to `(1, 4, 2)`. -/
def sampleEnv (stop close deinit : Int) : Env :=
  { MMWave_stop := fun _ => (stop, -9)
    MMWave_close := fun _ => (close, -9)
    MMWave_deinit := fun _ => (deinit, -9)
    MMWave_decodeError := fun _ => (1, 4, 2) }

end MmwaveBasic

namespace FactoryCal

/-! ## The four paths of `restoreFactoryCal` -/

theorem restoreFactoryCal_of_read_failure (k : Defines) (env : Env) (g : SysContext)
    (cd : Mmw_calibData)
    (hread : (env.Flash_read k.CLI_FACCALCFG_FLASH_OFFSET k.sizeof_Mmw_calibData cd).1
      = SystemP_FAILURE) :
    restoreFactoryCal k env g cd =
      { ret := -1, gSysContext := g
        calibData := (env.Flash_read k.CLI_FACCALCFG_FLASH_OFFSET k.sizeof_Mmw_calibData cd).2
        trace := readTrace k ++ [Event.log LogMsg.couldNotReadFromFlash] } := by
  simp [restoreFactoryCal, readTrace, hread]

theorem restoreFactoryCal_of_magic_mismatch (k : Defines) (env : Env) (g : SysContext)
    (cd : Mmw_calibData)
    (hread : (env.Flash_read k.CLI_FACCALCFG_FLASH_OFFSET k.sizeof_Mmw_calibData cd).1
      ≠ SystemP_FAILURE)
    (hmagic : (env.Flash_read k.CLI_FACCALCFG_FLASH_OFFSET k.sizeof_Mmw_calibData cd).2.magic
      ≠ k.MMWDEMO_CALIB_STORE_MAGIC) :
    restoreFactoryCal k env g cd =
      { ret := -1, gSysContext := g
        calibData := (env.Flash_read k.CLI_FACCALCFG_FLASH_OFFSET k.sizeof_Mmw_calibData cd).2
        trace := readTrace k ++
          [Event.magicCompare
            (env.Flash_read k.CLI_FACCALCFG_FLASH_OFFSET k.sizeof_Mmw_calibData cd).2.magic,
           Event.log LogMsg.headerValidationFailed] } := by
  simp [restoreFactoryCal, readTrace, hread, hmagic]

theorem restoreFactoryCal_of_apply_failure (k : Defines) (env : Env) (g : SysContext)
    (cd : Mmw_calibData)
    (hread : (env.Flash_read k.CLI_FACCALCFG_FLASH_OFFSET k.sizeof_Mmw_calibData cd).1
      ≠ SystemP_FAILURE)
    (hmagic : (env.Flash_read k.CLI_FACCALCFG_FLASH_OFFSET k.sizeof_Mmw_calibData cd).2.magic
      = k.MMWDEMO_CALIB_STORE_MAGIC)
    (happly : (env.MMWave_factoryCalibConfig g.gCtrlHandle (restoreFactoryCal_applied k g)
      (env.Flash_read k.CLI_FACCALCFG_FLASH_OFFSET k.sizeof_Mmw_calibData cd).2).1
      ≠ SystemP_SUCCESS) :
    ∃ errCode msg,
      (msg = LogMsg.factoryCalibrationFailure ∨ msg = LogMsg.invalidFactoryCalibrationArguments) ∧
      restoreFactoryCal k env g cd =
        { ret := -1, gSysContext := g
          calibData := (env.Flash_read k.CLI_FACCALCFG_FLASH_OFFSET k.sizeof_Mmw_calibData cd).2
          trace := readTrace k ++
            [Event.magicCompare
              (env.Flash_read k.CLI_FACCALCFG_FLASH_OFFSET k.sizeof_Mmw_calibData cd).2.magic,
             Event.factoryCalibConfig g.gCtrlHandle (restoreFactoryCal_applied k g)
              (env.Flash_read k.CLI_FACCALCFG_FLASH_OFFSET k.sizeof_Mmw_calibData cd).2,
             Event.decodeError errCode,
             Event.log (LogMsg.controlInitializationFailed errCode
               (env.MMWave_decodeError errCode).1 (env.MMWave_decodeError errCode).2.1
               (env.MMWave_decodeError errCode).2.2),
             Event.log msg] } := by
  refine ⟨(env.MMWave_factoryCalibConfig g.gCtrlHandle (restoreFactoryCal_applied k g)
      (env.Flash_read k.CLI_FACCALCFG_FLASH_OFFSET k.sizeof_Mmw_calibData cd).2).2, ?_⟩
  by_cases hcode : (env.MMWave_decodeError
      (env.MMWave_factoryCalibConfig g.gCtrlHandle (restoreFactoryCal_applied k g)
        (env.Flash_read k.CLI_FACCALCFG_FLASH_OFFSET k.sizeof_Mmw_calibData cd).2).2).2.1
      = k.MMWAVE_ERFSBOOTCAL
  · exact ⟨LogMsg.factoryCalibrationFailure, Or.inl rfl, by
      simp [restoreFactoryCal, readTrace, hread, hmagic, happly, hcode]⟩
  · exact ⟨LogMsg.invalidFactoryCalibrationArguments, Or.inr rfl, by
      simp [restoreFactoryCal, readTrace, hread, hmagic, happly, hcode]⟩

theorem restoreFactoryCal_of_apply_success (k : Defines) (env : Env) (g : SysContext)
    (cd : Mmw_calibData)
    (hread : (env.Flash_read k.CLI_FACCALCFG_FLASH_OFFSET k.sizeof_Mmw_calibData cd).1
      ≠ SystemP_FAILURE)
    (hmagic : (env.Flash_read k.CLI_FACCALCFG_FLASH_OFFSET k.sizeof_Mmw_calibData cd).2.magic
      = k.MMWDEMO_CALIB_STORE_MAGIC)
    (happly : (env.MMWave_factoryCalibConfig g.gCtrlHandle (restoreFactoryCal_applied k g)
      (env.Flash_read k.CLI_FACCALCFG_FLASH_OFFSET k.sizeof_Mmw_calibData cd).2).1
      = SystemP_SUCCESS) :
    restoreFactoryCal k env g cd =
      { ret := 0
        gSysContext :=
          { g with fecTxclpcCalCmd :=
              restoreFactoryCal_project (restoreFactoryCal_applied k g) g.fecTxclpcCalCmd }
        calibData := (env.Flash_read k.CLI_FACCALCFG_FLASH_OFFSET k.sizeof_Mmw_calibData cd).2
        trace := readTrace k ++
          [Event.magicCompare
            (env.Flash_read k.CLI_FACCALCFG_FLASH_OFFSET k.sizeof_Mmw_calibData cd).2.magic,
           Event.factoryCalibConfig g.gCtrlHandle (restoreFactoryCal_applied k g)
            (env.Flash_read k.CLI_FACCALCFG_FLASH_OFFSET k.sizeof_Mmw_calibData cd).2] } := by
  simp [restoreFactoryCal, readTrace, hread, hmagic, happly, SystemP_SUCCESS]

/-- A run hands at most one request to `MMWave_factoryCalibConfig`, and it is
the request of `restoreFactoryCal_applied`. -/
theorem applyCalls_restoreFactoryCal (k : Defines) (env : Env) (g : SysContext)
    (cd : Mmw_calibData) :
    applyCalls (restoreFactoryCal k env g cd).trace = [] ∨
      applyCalls (restoreFactoryCal k env g cd).trace = [restoreFactoryCal_applied k g] := by
  by_cases hread : (env.Flash_read k.CLI_FACCALCFG_FLASH_OFFSET k.sizeof_Mmw_calibData cd).1
      = SystemP_FAILURE
  · left
    rw [restoreFactoryCal_of_read_failure k env g cd hread]
    simp [applyCalls, readTrace]
  · by_cases hmagic :
        (env.Flash_read k.CLI_FACCALCFG_FLASH_OFFSET k.sizeof_Mmw_calibData cd).2.magic
          = k.MMWDEMO_CALIB_STORE_MAGIC
    · right
      by_cases happly :
          (env.MMWave_factoryCalibConfig g.gCtrlHandle (restoreFactoryCal_applied k g)
            (env.Flash_read k.CLI_FACCALCFG_FLASH_OFFSET k.sizeof_Mmw_calibData cd).2).1
            = SystemP_SUCCESS
      · rw [restoreFactoryCal_of_apply_success k env g cd hread hmagic happly]
        simp [applyCalls, readTrace]
      · obtain ⟨e, msg, -, h⟩ := restoreFactoryCal_of_apply_failure k env g cd hread hmagic happly
        rw [h]
        simp [applyCalls, readTrace]
    · left
      rw [restoreFactoryCal_of_magic_mismatch k env g cd hread hmagic]
      simp [applyCalls, readTrace]

/-- The result code of a run, by the first step that fails. -/
theorem restoreFactoryCal_ret_cases (k : Defines) (env : Env) (g : SysContext)
    (cd : Mmw_calibData) :
    ((restoreFactoryCal k env g cd).ret = 0 ∧
        (env.Flash_read k.CLI_FACCALCFG_FLASH_OFFSET k.sizeof_Mmw_calibData cd).1
          ≠ SystemP_FAILURE ∧
        (env.Flash_read k.CLI_FACCALCFG_FLASH_OFFSET k.sizeof_Mmw_calibData cd).2.magic
          = k.MMWDEMO_CALIB_STORE_MAGIC ∧
        (env.MMWave_factoryCalibConfig g.gCtrlHandle (restoreFactoryCal_applied k g)
          (env.Flash_read k.CLI_FACCALCFG_FLASH_OFFSET k.sizeof_Mmw_calibData cd).2).1
          = SystemP_SUCCESS) ∨
      ((restoreFactoryCal k env g cd).ret = -1 ∧
        (restoreFactoryCal k env g cd).gSysContext = g ∧
        ¬ ((env.Flash_read k.CLI_FACCALCFG_FLASH_OFFSET k.sizeof_Mmw_calibData cd).1
            ≠ SystemP_FAILURE ∧
          (env.Flash_read k.CLI_FACCALCFG_FLASH_OFFSET k.sizeof_Mmw_calibData cd).2.magic
            = k.MMWDEMO_CALIB_STORE_MAGIC ∧
          (env.MMWave_factoryCalibConfig g.gCtrlHandle (restoreFactoryCal_applied k g)
            (env.Flash_read k.CLI_FACCALCFG_FLASH_OFFSET k.sizeof_Mmw_calibData cd).2).1
            = SystemP_SUCCESS)) := by
  by_cases hread : (env.Flash_read k.CLI_FACCALCFG_FLASH_OFFSET k.sizeof_Mmw_calibData cd).1
      = SystemP_FAILURE
  · right
    rw [restoreFactoryCal_of_read_failure k env g cd hread]
    exact ⟨rfl, rfl, fun h => h.1 hread⟩
  · by_cases hmagic :
        (env.Flash_read k.CLI_FACCALCFG_FLASH_OFFSET k.sizeof_Mmw_calibData cd).2.magic
          = k.MMWDEMO_CALIB_STORE_MAGIC
    · by_cases happly :
          (env.MMWave_factoryCalibConfig g.gCtrlHandle (restoreFactoryCal_applied k g)
            (env.Flash_read k.CLI_FACCALCFG_FLASH_OFFSET k.sizeof_Mmw_calibData cd).2).1
            = SystemP_SUCCESS
      · left
        rw [restoreFactoryCal_of_apply_success k env g cd hread hmagic happly]
        exact ⟨rfl, hread, hmagic, happly⟩
      · right
        obtain ⟨e, msg, -, h⟩ := restoreFactoryCal_of_apply_failure k env g cd hread hmagic happly
        rw [h]
        exact ⟨rfl, rfl, fun h => happly h.2.2⟩
    · right
      rw [restoreFactoryCal_of_magic_mismatch k env g cd hread hmagic]
      exact ⟨rfl, rfl, fun h => hmagic h.2.1⟩

/-- The run whose apply call does not return `SystemP_SUCCESS`: result and
full trace, with the second log line chosen by the decoded error code. -/
theorem restoreFactoryCal_trace_of_apply_failure (k : Defines) (env : Env) (g : SysContext)
    (cd : Mmw_calibData)
    (hread : (env.Flash_read k.CLI_FACCALCFG_FLASH_OFFSET k.sizeof_Mmw_calibData cd).1
      ≠ SystemP_FAILURE)
    (hmagic : (env.Flash_read k.CLI_FACCALCFG_FLASH_OFFSET k.sizeof_Mmw_calibData cd).2.magic
      = k.MMWDEMO_CALIB_STORE_MAGIC)
    (happly : (env.MMWave_factoryCalibConfig g.gCtrlHandle (restoreFactoryCal_applied k g)
      (env.Flash_read k.CLI_FACCALCFG_FLASH_OFFSET k.sizeof_Mmw_calibData cd).2).1
      ≠ SystemP_SUCCESS) :
    (restoreFactoryCal k env g cd).ret = -1 ∧
      (restoreFactoryCal k env g cd).trace =
        readTrace k ++
          [Event.magicCompare
            (env.Flash_read k.CLI_FACCALCFG_FLASH_OFFSET k.sizeof_Mmw_calibData cd).2.magic,
           Event.factoryCalibConfig g.gCtrlHandle (restoreFactoryCal_applied k g)
            (env.Flash_read k.CLI_FACCALCFG_FLASH_OFFSET k.sizeof_Mmw_calibData cd).2,
           Event.decodeError
            (env.MMWave_factoryCalibConfig g.gCtrlHandle (restoreFactoryCal_applied k g)
              (env.Flash_read k.CLI_FACCALCFG_FLASH_OFFSET k.sizeof_Mmw_calibData cd).2).2,
           Event.log (LogMsg.controlInitializationFailed
            (env.MMWave_factoryCalibConfig g.gCtrlHandle (restoreFactoryCal_applied k g)
              (env.Flash_read k.CLI_FACCALCFG_FLASH_OFFSET k.sizeof_Mmw_calibData cd).2).2
            (env.MMWave_decodeError
              (env.MMWave_factoryCalibConfig g.gCtrlHandle (restoreFactoryCal_applied k g)
                (env.Flash_read k.CLI_FACCALCFG_FLASH_OFFSET k.sizeof_Mmw_calibData cd).2).2).1
            (env.MMWave_decodeError
              (env.MMWave_factoryCalibConfig g.gCtrlHandle (restoreFactoryCal_applied k g)
                (env.Flash_read k.CLI_FACCALCFG_FLASH_OFFSET k.sizeof_Mmw_calibData cd).2).2).2.1
            (env.MMWave_decodeError
              (env.MMWave_factoryCalibConfig g.gCtrlHandle (restoreFactoryCal_applied k g)
                (env.Flash_read k.CLI_FACCALCFG_FLASH_OFFSET k.sizeof_Mmw_calibData cd).2).2).2.2),
           Event.log
            (if (env.MMWave_decodeError
                (env.MMWave_factoryCalibConfig g.gCtrlHandle (restoreFactoryCal_applied k g)
                  (env.Flash_read k.CLI_FACCALCFG_FLASH_OFFSET k.sizeof_Mmw_calibData cd).2).2).2.1
                = k.MMWAVE_ERFSBOOTCAL
              then LogMsg.factoryCalibrationFailure
              else LogMsg.invalidFactoryCalibrationArguments)] := by
  by_cases hcode : (env.MMWave_decodeError
      (env.MMWave_factoryCalibConfig g.gCtrlHandle (restoreFactoryCal_applied k g)
        (env.Flash_read k.CLI_FACCALCFG_FLASH_OFFSET k.sizeof_Mmw_calibData cd).2).2).2.1
      = k.MMWAVE_ERFSBOOTCAL
  · simp [restoreFactoryCal, readTrace, hread, hmagic, happly, hcode]
  · simp [restoreFactoryCal, readTrace, hread, hmagic, happly, hcode]

/-! ## Claims about `restoreFactoryCal` -/

/-- C1: for every record delivered by the flash read whose magic differs from
`MMWDEMO_CALIB_STORE_MAGIC`, when the read does not report `SystemP_FAILURE`,
`restoreFactoryCal` returns `-1` and `MMWave_factoryCalibConfig` is never
called. -/
theorem magic_mismatch_returns_failure_without_apply (k : Defines) (env : Env)
    (g : SysContext) (cd : Mmw_calibData)
    (hread : (env.Flash_read k.CLI_FACCALCFG_FLASH_OFFSET k.sizeof_Mmw_calibData cd).1
      ≠ SystemP_FAILURE)
    (hmagic : (env.Flash_read k.CLI_FACCALCFG_FLASH_OFFSET k.sizeof_Mmw_calibData cd).2.magic
      ≠ k.MMWDEMO_CALIB_STORE_MAGIC) :
    (restoreFactoryCal k env g cd).ret = -1 ∧
      applyCalls (restoreFactoryCal k env g cd).trace = [] := by
  rw [restoreFactoryCal_of_magic_mismatch k env g cd hread hmagic]
  simp [applyCalls, readTrace]

/-- Witness for C1: an all-zero record, read with status `SystemP_SUCCESS`. -/
theorem magic_mismatch_returns_failure_without_apply_witness :
    (restoreFactoryCal sampleDefines (sampleEnv SystemP_SUCCESS (Mmw_calibData.zero 4) 0 0 0)
        (sampleContext 3) (Mmw_calibData.zero 4)).ret = -1 ∧
      applyCalls (restoreFactoryCal sampleDefines
        (sampleEnv SystemP_SUCCESS (Mmw_calibData.zero 4) 0 0 0)
        (sampleContext 3) (Mmw_calibData.zero 4)).trace = [] :=
  magic_mismatch_returns_failure_without_apply sampleDefines
    (sampleEnv SystemP_SUCCESS (Mmw_calibData.zero 4) 0 0 0) (sampleContext 3)
    (Mmw_calibData.zero 4) (by decide) (by decide)

/-- C2: if `Flash_read` returns `SystemP_FAILURE`, `restoreFactoryCal` returns
`-1`; the run consists of the read, the cache write-back and one log line, so
the magic tag is not compared and `MMWave_factoryCalibConfig` is not called,
whatever the calibration buffer holds before or after the read. -/
theorem read_failure_short_circuits (k : Defines) (env : Env) (g : SysContext)
    (cd : Mmw_calibData)
    (hread : (env.Flash_read k.CLI_FACCALCFG_FLASH_OFFSET k.sizeof_Mmw_calibData cd).1
      = SystemP_FAILURE) :
    (restoreFactoryCal k env g cd).ret = -1 ∧
      (restoreFactoryCal k env g cd).trace =
        [Event.flashRead k.CLI_FACCALCFG_FLASH_OFFSET k.sizeof_Mmw_calibData,
         Event.cacheWb k.sizeof_Mmw_calibData,
         Event.log LogMsg.couldNotReadFromFlash] ∧
      magicCompares (restoreFactoryCal k env g cd).trace = [] ∧
      applyCalls (restoreFactoryCal k env g cd).trace = [] := by
  rw [restoreFactoryCal_of_read_failure k env g cd hread]
  simp [applyCalls, magicCompares, readTrace]

/-- Witness for C2: the read fails although the buffer then holds a record
with the right magic. -/
theorem read_failure_short_circuits_witness :
    (restoreFactoryCal sampleDefines (sampleEnv SystemP_FAILURE sampleRecord 0 0 0)
        (sampleContext 3) sampleRecord).ret = -1 ∧
      (restoreFactoryCal sampleDefines (sampleEnv SystemP_FAILURE sampleRecord 0 0 0)
        (sampleContext 3) sampleRecord).trace =
        [Event.flashRead 0x1FF000 8, Event.cacheWb 8, Event.log LogMsg.couldNotReadFromFlash] ∧
      magicCompares (restoreFactoryCal sampleDefines
        (sampleEnv SystemP_FAILURE sampleRecord 0 0 0) (sampleContext 3) sampleRecord).trace
        = [] ∧
      applyCalls (restoreFactoryCal sampleDefines
        (sampleEnv SystemP_FAILURE sampleRecord 0 0 0) (sampleContext 3) sampleRecord).trace
        = [] :=
  read_failure_short_circuits sampleDefines (sampleEnv SystemP_FAILURE sampleRecord 0 0 0)
    (sampleContext 3) sampleRecord rfl

/-- C3, evaluated on the code: when the flash read returns the status `-2`
(neither `SystemP_SUCCESS` nor `SystemP_FAILURE`) and the buffer holds a record
with the right magic, `restoreFactoryCal` compares the magic, calls
`MMWave_factoryCalibConfig` and returns `0`. -/
theorem read_status_other_than_failure_is_not_caught :
    (-2 : Int) ≠ SystemP_SUCCESS ∧
      (restoreFactoryCal sampleDefines (sampleEnv (-2) sampleRecord SystemP_SUCCESS 0 0)
        (sampleContext 3) sampleRecord).ret = 0 ∧
      magicCompares (restoreFactoryCal sampleDefines
        (sampleEnv (-2) sampleRecord SystemP_SUCCESS 0 0) (sampleContext 3) sampleRecord).trace
        = [0x7CB28DF9] ∧
      applyCalls (restoreFactoryCal sampleDefines
        (sampleEnv (-2) sampleRecord SystemP_SUCCESS 0 0) (sampleContext 3) sampleRecord).trace
        = [restoreFactoryCal_applied sampleDefines (sampleContext 3)] := by
  decide

/-- The result code as the code computes it: `restoreFactoryCal` returns only
`0` or `-1`, and it returns `0` exactly when the flash read does not return
the one status `SystemP_FAILURE`, the magic matches and
`MMWave_factoryCalibConfig` returns `SystemP_SUCCESS`. A read that fails with
any other status is not told apart from a successful one. -/
theorem restoreFactoryCal_ret_eq_zero_iff (k : Defines) (env : Env) (g : SysContext)
    (cd : Mmw_calibData) :
    ((restoreFactoryCal k env g cd).ret = 0 ∨ (restoreFactoryCal k env g cd).ret = -1) ∧
      ((restoreFactoryCal k env g cd).ret = 0 ↔
        ((env.Flash_read k.CLI_FACCALCFG_FLASH_OFFSET k.sizeof_Mmw_calibData cd).1
            ≠ SystemP_FAILURE ∧
          (env.Flash_read k.CLI_FACCALCFG_FLASH_OFFSET k.sizeof_Mmw_calibData cd).2.magic
            = k.MMWDEMO_CALIB_STORE_MAGIC ∧
          (env.MMWave_factoryCalibConfig g.gCtrlHandle (restoreFactoryCal_applied k g)
            (env.Flash_read k.CLI_FACCALCFG_FLASH_OFFSET k.sizeof_Mmw_calibData cd).2).1
            = SystemP_SUCCESS)) ∧
      ((restoreFactoryCal k env g cd).ret = -1 ↔
        ¬ ((env.Flash_read k.CLI_FACCALCFG_FLASH_OFFSET k.sizeof_Mmw_calibData cd).1
            ≠ SystemP_FAILURE ∧
          (env.Flash_read k.CLI_FACCALCFG_FLASH_OFFSET k.sizeof_Mmw_calibData cd).2.magic
            = k.MMWDEMO_CALIB_STORE_MAGIC ∧
          (env.MMWave_factoryCalibConfig g.gCtrlHandle (restoreFactoryCal_applied k g)
            (env.Flash_read k.CLI_FACCALCFG_FLASH_OFFSET k.sizeof_Mmw_calibData cd).2).1
            = SystemP_SUCCESS)) := by
  rcases restoreFactoryCal_ret_cases k env g cd with ⟨hret, hok⟩ | ⟨hret, -, hbad⟩
  · refine ⟨Or.inl hret, ⟨fun _ => hok, fun _ => hret⟩, ⟨fun h => ?_, fun h => absurd hok h⟩⟩
    rw [hret] at h
    exact absurd h (by decide)
  · refine ⟨Or.inr hret, ⟨fun h => ?_, fun h => absurd h hbad⟩, ⟨fun _ => hbad, fun _ => hret⟩⟩
    rw [hret] at h
    exact absurd h (by decide)

/-- C4, evaluated on the code: the flash read fails with status `-3` (not
`SystemP_SUCCESS`), the buffer holds a record with the right magic and
`MMWave_factoryCalibConfig` returns `SystemP_SUCCESS`; the run returns `0`
although the flash read failed, and the runtime command is overwritten. -/
theorem failed_read_can_return_zero :
    (-3 : Int) ≠ SystemP_SUCCESS ∧
      (sampleEnv (-3) sampleRecord SystemP_SUCCESS 0 0).Flash_read
        sampleDefines.CLI_FACCALCFG_FLASH_OFFSET sampleDefines.sizeof_Mmw_calibData
        (Mmw_calibData.zero 4) = (-3, sampleRecord) ∧
      (restoreFactoryCal sampleDefines (sampleEnv (-3) sampleRecord SystemP_SUCCESS 0 0)
        (sampleContext 1) (Mmw_calibData.zero 4)).ret = 0 ∧
      (restoreFactoryCal sampleDefines (sampleEnv (-3) sampleRecord SystemP_SUCCESS 0 0)
        (sampleContext 1) (Mmw_calibData.zero 4)).gSysContext.fecTxclpcCalCmd ≠ sampleCmd := by
  decide

/-- C5: in the request built by `restoreFactoryCal`, both as first filled in
and as handed to the apply call, the TX enable mask follows the TX channel
bitmask: `0x3` gives `[0x3, 0x1]`, `0x1` gives `[0x1, 0x1]` and `0x2` gives
`[0x2, 0x2]`. -/
theorem tx_enable_mask_follows_channel_bitmask (k : Defines) (g : SysContext) :
    (restoreFactoryCal_applied k g).fecRFFactoryCalCmd.c_TxPwrCalTxEnaMask
        = (restoreFactoryCal_request k g).fecRFFactoryCalCmd.c_TxPwrCalTxEnaMask ∧
      (g.channelCfg.h_TxChCtrlBitMask = 0x3 →
        (restoreFactoryCal_request k g).fecRFFactoryCalCmd.c_TxPwrCalTxEnaMask = (0x3, 0x1)) ∧
      (g.channelCfg.h_TxChCtrlBitMask = 0x1 →
        (restoreFactoryCal_request k g).fecRFFactoryCalCmd.c_TxPwrCalTxEnaMask = (0x1, 0x1)) ∧
      (g.channelCfg.h_TxChCtrlBitMask = 0x2 →
        (restoreFactoryCal_request k g).fecRFFactoryCalCmd.c_TxPwrCalTxEnaMask = (0x2, 0x2)) := by
  refine ⟨rfl, fun h => ?_, fun h => ?_, fun h => ?_⟩ <;>
    simp [restoreFactoryCal_request, h]

/-- Witness for C5: the three supported bitmasks, on the sample globals. -/
theorem tx_enable_mask_follows_channel_bitmask_witness :
    (restoreFactoryCal_request sampleDefines (sampleContext 3)).fecRFFactoryCalCmd.c_TxPwrCalTxEnaMask
        = (0x3, 0x1) ∧
      (restoreFactoryCal_request sampleDefines (sampleContext 1)).fecRFFactoryCalCmd.c_TxPwrCalTxEnaMask
        = (0x1, 0x1) ∧
      (restoreFactoryCal_request sampleDefines (sampleContext 2)).fecRFFactoryCalCmd.c_TxPwrCalTxEnaMask
        = (0x2, 0x2) :=
  ⟨(tx_enable_mask_follows_channel_bitmask sampleDefines (sampleContext 3)).2.1 rfl,
   (tx_enable_mask_follows_channel_bitmask sampleDefines (sampleContext 1)).2.2.1 rfl,
   (tx_enable_mask_follows_channel_bitmask sampleDefines (sampleContext 2)).2.2.2 rfl⟩

/-- C6: for every TX channel bitmask other than `0x3`, `0x1` and `0x2`, the
run still reads, validates and applies: when the read does not report
`SystemP_FAILURE` and the magic matches, the magic is compared, exactly one
request is handed to `MMWave_factoryCalibConfig`, both entries of its
`c_TxPwrCalTxEnaMask` are `0`, and the run returns `0` if that call returns
`SystemP_SUCCESS`. -/
theorem unsupported_bitmask_applies_zero_mask (k : Defines) (env : Env) (g : SysContext)
    (cd : Mmw_calibData)
    (h3 : g.channelCfg.h_TxChCtrlBitMask ≠ 0x3)
    (h1 : g.channelCfg.h_TxChCtrlBitMask ≠ 0x1)
    (h2 : g.channelCfg.h_TxChCtrlBitMask ≠ 0x2)
    (hread : (env.Flash_read k.CLI_FACCALCFG_FLASH_OFFSET k.sizeof_Mmw_calibData cd).1
      ≠ SystemP_FAILURE)
    (hmagic : (env.Flash_read k.CLI_FACCALCFG_FLASH_OFFSET k.sizeof_Mmw_calibData cd).2.magic
      = k.MMWDEMO_CALIB_STORE_MAGIC) :
    magicCompares (restoreFactoryCal k env g cd).trace = [k.MMWDEMO_CALIB_STORE_MAGIC] ∧
      applyCalls (restoreFactoryCal k env g cd).trace = [restoreFactoryCal_applied k g] ∧
      (restoreFactoryCal_applied k g).fecRFFactoryCalCmd.c_TxPwrCalTxEnaMask = (0, 0) ∧
      ((env.MMWave_factoryCalibConfig g.gCtrlHandle (restoreFactoryCal_applied k g)
          (env.Flash_read k.CLI_FACCALCFG_FLASH_OFFSET k.sizeof_Mmw_calibData cd).2).1
          = SystemP_SUCCESS →
        (restoreFactoryCal k env g cd).ret = 0) := by
  have hmask : (restoreFactoryCal_applied k g).fecRFFactoryCalCmd.c_TxPwrCalTxEnaMask = (0, 0) := by
    simp [restoreFactoryCal_applied, restoreFactoryCal_request, h3, h1, h2, MMWave_calibCfg.zero]
  by_cases happly :
      (env.MMWave_factoryCalibConfig g.gCtrlHandle (restoreFactoryCal_applied k g)
        (env.Flash_read k.CLI_FACCALCFG_FLASH_OFFSET k.sizeof_Mmw_calibData cd).2).1
        = SystemP_SUCCESS
  · rw [restoreFactoryCal_of_apply_success k env g cd hread hmagic happly]
    refine ⟨?_, ?_, hmask, fun _ => rfl⟩
    · simp [magicCompares, readTrace, hmagic]
    · simp [applyCalls, readTrace]
  · obtain ⟨e, msg, -, h⟩ := restoreFactoryCal_of_apply_failure k env g cd hread hmagic happly
    rw [h]
    refine ⟨?_, ?_, hmask, fun hs => absurd hs happly⟩
    · simp [magicCompares, readTrace, hmagic]
    · simp [applyCalls, readTrace]

/-- Witness for C6: the bitmask `0x5`, a good read and a matching record. -/
theorem unsupported_bitmask_applies_zero_mask_witness :
    magicCompares (restoreFactoryCal sampleDefines
        (sampleEnv SystemP_SUCCESS sampleRecord SystemP_SUCCESS 0 0) (sampleContext 5)
        sampleRecord).trace = [0x7CB28DF9] ∧
      applyCalls (restoreFactoryCal sampleDefines
        (sampleEnv SystemP_SUCCESS sampleRecord SystemP_SUCCESS 0 0) (sampleContext 5)
        sampleRecord).trace = [restoreFactoryCal_applied sampleDefines (sampleContext 5)] ∧
      (restoreFactoryCal_applied sampleDefines (sampleContext 5)).fecRFFactoryCalCmd.c_TxPwrCalTxEnaMask
        = (0, 0) ∧
      (restoreFactoryCal sampleDefines
        (sampleEnv SystemP_SUCCESS sampleRecord SystemP_SUCCESS 0 0) (sampleContext 5)
        sampleRecord).ret = 0 :=
  have h := unsupported_bitmask_applies_zero_mask sampleDefines
    (sampleEnv SystemP_SUCCESS sampleRecord SystemP_SUCCESS 0 0) (sampleContext 5) sampleRecord
    (by decide) (by decide) (by decide) (by decide) (by decide)
  ⟨h.1, h.2.1, h.2.2.1, h.2.2.2 rfl⟩

/-- C7: whenever `restoreFactoryCal` returns success, exactly one request was
handed to `MMWave_factoryCalibConfig` and `gSysContext.fecTxclpcCalCmd` mirrors
it: `c_CalTxBackOffSel`, `h_CalRfFreq`, `xh_CalRfSlope` and
`c_TxPwrCalTxEnaMask` equal the request's fields, and `c_CalMode` is `0`. -/
theorem success_projects_applied_request (k : Defines) (env : Env) (g : SysContext)
    (cd : Mmw_calibData) (hret : (restoreFactoryCal k env g cd).ret = 0) :
    applyCalls (restoreFactoryCal k env g cd).trace = [restoreFactoryCal_applied k g] ∧
      (restoreFactoryCal k env g cd).gSysContext.fecTxclpcCalCmd =
        { c_CalMode := 0
          c_CalTxBackOffSel := (restoreFactoryCal_applied k g).fecRFFactoryCalCmd.c_CalTxBackOffSel
          h_CalRfFreq := (restoreFactoryCal_applied k g).fecRFFactoryCalCmd.h_CalRfFreq
          xh_CalRfSlope := (restoreFactoryCal_applied k g).fecRFFactoryCalCmd.xh_CalRfSlope
          c_TxPwrCalTxEnaMask :=
            (restoreFactoryCal_applied k g).fecRFFactoryCalCmd.c_TxPwrCalTxEnaMask } := by
  rcases restoreFactoryCal_ret_cases k env g cd with ⟨-, hread, hmagic, happly⟩ | ⟨hbad, -, -⟩
  · rw [restoreFactoryCal_of_apply_success k env g cd hread hmagic happly]
    refine ⟨?_, ?_⟩
    · simp [applyCalls, readTrace]
    · simp [restoreFactoryCal_project]
  · rw [hbad] at hret
    exact absurd hret (by decide)

/-- Witness for C7: a successful run on the sample globals. -/
theorem success_projects_applied_request_witness :
    applyCalls (restoreFactoryCal sampleDefines
        (sampleEnv SystemP_SUCCESS sampleRecord SystemP_SUCCESS 0 0) (sampleContext 1)
        sampleRecord).trace = [restoreFactoryCal_applied sampleDefines (sampleContext 1)] ∧
      (restoreFactoryCal sampleDefines
        (sampleEnv SystemP_SUCCESS sampleRecord SystemP_SUCCESS 0 0) (sampleContext 1)
        sampleRecord).gSysContext.fecTxclpcCalCmd =
        { c_CalMode := 0
          c_CalTxBackOffSel :=
            (restoreFactoryCal_applied sampleDefines (sampleContext 1)).fecRFFactoryCalCmd.c_CalTxBackOffSel
          h_CalRfFreq :=
            (restoreFactoryCal_applied sampleDefines (sampleContext 1)).fecRFFactoryCalCmd.h_CalRfFreq
          xh_CalRfSlope :=
            (restoreFactoryCal_applied sampleDefines (sampleContext 1)).fecRFFactoryCalCmd.xh_CalRfSlope
          c_TxPwrCalTxEnaMask :=
            (restoreFactoryCal_applied sampleDefines (sampleContext 1)).fecRFFactoryCalCmd.c_TxPwrCalTxEnaMask } :=
  success_projects_applied_request sampleDefines
    (sampleEnv SystemP_SUCCESS sampleRecord SystemP_SUCCESS 0 0) (sampleContext 1) sampleRecord
    (by decide)

/-- C9: when the flash read succeeds with a record carrying the right magic,
the TX channel bitmask is `0x3` and `MMWave_factoryCalibConfig` returns
success, `restoreFactoryCal` returns `0` and afterwards
`gSysContext.fecTxclpcCalCmd.c_TxPwrCalTxEnaMask` is `[0x3, 0x1]`. -/
theorem end_to_end_success_with_both_tx (k : Defines) (env : Env) (g : SysContext)
    (cd : Mmw_calibData)
    (hread : (env.Flash_read k.CLI_FACCALCFG_FLASH_OFFSET k.sizeof_Mmw_calibData cd).1
      = SystemP_SUCCESS)
    (hmagic : (env.Flash_read k.CLI_FACCALCFG_FLASH_OFFSET k.sizeof_Mmw_calibData cd).2.magic
      = k.MMWDEMO_CALIB_STORE_MAGIC)
    (hmask : g.channelCfg.h_TxChCtrlBitMask = 0x3)
    (happly : (env.MMWave_factoryCalibConfig g.gCtrlHandle (restoreFactoryCal_applied k g)
      (env.Flash_read k.CLI_FACCALCFG_FLASH_OFFSET k.sizeof_Mmw_calibData cd).2).1
      = SystemP_SUCCESS) :
    (restoreFactoryCal k env g cd).ret = 0 ∧
      (restoreFactoryCal k env g cd).gSysContext.fecTxclpcCalCmd.c_TxPwrCalTxEnaMask
        = (0x3, 0x1) := by
  have hread' : (env.Flash_read k.CLI_FACCALCFG_FLASH_OFFSET k.sizeof_Mmw_calibData cd).1
      ≠ SystemP_FAILURE := by
    rw [hread]; decide
  rw [restoreFactoryCal_of_apply_success k env g cd hread' hmagic happly]
  refine ⟨rfl, ?_⟩
  simp [restoreFactoryCal_project, restoreFactoryCal_applied, restoreFactoryCal_request, hmask]

/-- Witness for C9: the sample record, bitmask `0x3`, all calls succeed. -/
theorem end_to_end_success_with_both_tx_witness :
    (restoreFactoryCal sampleDefines
        (sampleEnv SystemP_SUCCESS sampleRecord SystemP_SUCCESS 0 0) (sampleContext 3)
        sampleRecord).ret = 0 ∧
      (restoreFactoryCal sampleDefines
        (sampleEnv SystemP_SUCCESS sampleRecord SystemP_SUCCESS 0 0) (sampleContext 3)
        sampleRecord).gSysContext.fecTxclpcCalCmd.c_TxPwrCalTxEnaMask = (0x3, 0x1) :=
  end_to_end_success_with_both_tx sampleDefines
    (sampleEnv SystemP_SUCCESS sampleRecord SystemP_SUCCESS 0 0) (sampleContext 3) sampleRecord
    rfl rfl rfl rfl

/-- C10 as stated fails: on a successful sample run the one request handed to
`MMWave_factoryCalibConfig` has `isFactoryCalEnabled` equal to `false`, not
`true`. -/
theorem enabled_flag_is_false_at_the_call :
    applyCalls (restoreFactoryCal sampleDefines
        (sampleEnv SystemP_SUCCESS sampleRecord SystemP_SUCCESS 0 0) (sampleContext 3)
        sampleRecord).trace = [restoreFactoryCal_applied sampleDefines (sampleContext 3)] ∧
      (restoreFactoryCal_applied sampleDefines (sampleContext 3)).isFactoryCalEnabled ≠ true := by
  decide

/-- C10, amended: the request is first filled in with `isFactoryCalEnabled`
equal to `true` (line 81), and the flag is set to `false` (line 150) before
the call of line 152, so every request handed to `MMWave_factoryCalibConfig`
has `isFactoryCalEnabled` equal to `false` at the moment of the call. -/
theorem enabled_flag_cleared_before_apply (k : Defines) (env : Env) (g : SysContext)
    (cd : Mmw_calibData) (cfg : MMWave_calibCfg)
    (hcall : cfg ∈ applyCalls (restoreFactoryCal k env g cd).trace) :
    (restoreFactoryCal_request k g).isFactoryCalEnabled = true ∧
      cfg.isFactoryCalEnabled = false := by
  refine ⟨?_, ?_⟩
  · by_cases h3 : g.channelCfg.h_TxChCtrlBitMask = 0x3
    · simp [restoreFactoryCal_request, h3, MMWave_calibCfg.zero]
    · by_cases h1 : g.channelCfg.h_TxChCtrlBitMask = 0x1
      · simp [restoreFactoryCal_request, h1, MMWave_calibCfg.zero]
      · by_cases h2 : g.channelCfg.h_TxChCtrlBitMask = 0x2
        · simp [restoreFactoryCal_request, h2, MMWave_calibCfg.zero]
        · simp [restoreFactoryCal_request, h3, h1, h2, MMWave_calibCfg.zero]
  · rcases applyCalls_restoreFactoryCal k env g cd with h | h
    · rw [h] at hcall
      exact absurd hcall (List.not_mem_nil cfg)
    · rw [h, List.mem_singleton] at hcall
      rw [hcall]
      rfl

/-- Witness for C10 amended: the request of the successful sample run. -/
theorem enabled_flag_cleared_before_apply_witness :
    (restoreFactoryCal_request sampleDefines (sampleContext 3)).isFactoryCalEnabled = true ∧
      (restoreFactoryCal_applied sampleDefines (sampleContext 3)).isFactoryCalEnabled = false :=
  enabled_flag_cleared_before_apply sampleDefines
    (sampleEnv SystemP_SUCCESS sampleRecord SystemP_SUCCESS 0 0) (sampleContext 3) sampleRecord
    (restoreFactoryCal_applied sampleDefines (sampleContext 3)) (by decide)

/-- C11: for every record delivered by the flash read with a matching magic,
the payload that the request refers to when `MMWave_factoryCalibConfig` is
called is exactly the payload of the delivered record; the call is made once
unless the read returned `SystemP_FAILURE`, and the global record after the
run is still the delivered one. -/
theorem applied_payload_is_the_record_read (k : Defines) (env : Env) (g : SysContext)
    (cd : Mmw_calibData)
    (hmagic : (env.Flash_read k.CLI_FACCALCFG_FLASH_OFFSET k.sizeof_Mmw_calibData cd).2.magic
      = k.MMWDEMO_CALIB_STORE_MAGIC) :
    applyPayloads (restoreFactoryCal k env g cd).trace =
        (if (env.Flash_read k.CLI_FACCALCFG_FLASH_OFFSET k.sizeof_Mmw_calibData cd).1
            = SystemP_FAILURE then []
          else [some
            (env.Flash_read k.CLI_FACCALCFG_FLASH_OFFSET k.sizeof_Mmw_calibData cd).2.calibData]) ∧
      (restoreFactoryCal k env g cd).calibData =
        (env.Flash_read k.CLI_FACCALCFG_FLASH_OFFSET k.sizeof_Mmw_calibData cd).2 := by
  by_cases hread : (env.Flash_read k.CLI_FACCALCFG_FLASH_OFFSET k.sizeof_Mmw_calibData cd).1
      = SystemP_FAILURE
  · rw [restoreFactoryCal_of_read_failure k env g cd hread]
    simp [applyPayloads, readTrace, hread]
  · by_cases happly :
        (env.MMWave_factoryCalibConfig g.gCtrlHandle (restoreFactoryCal_applied k g)
          (env.Flash_read k.CLI_FACCALCFG_FLASH_OFFSET k.sizeof_Mmw_calibData cd).2).1
          = SystemP_SUCCESS
    · rw [restoreFactoryCal_of_apply_success k env g cd hread hmagic happly]
      simp [applyPayloads, readTrace, hread, restoreFactoryCal_applied, Ptr.deref]
    · obtain ⟨e, msg, -, h⟩ := restoreFactoryCal_of_apply_failure k env g cd hread hmagic happly
      rw [h]
      simp [applyPayloads, readTrace, hread, restoreFactoryCal_applied, Ptr.deref]

/-- Witness for C11: the sample record is read and applied. -/
theorem applied_payload_is_the_record_read_witness :
    applyPayloads (restoreFactoryCal sampleDefines
        (sampleEnv SystemP_SUCCESS sampleRecord SystemP_SUCCESS 0 0) (sampleContext 3)
        (Mmw_calibData.zero 4)).trace = [some [0x11, 0x22, 0x33, 0x44]] ∧
      (restoreFactoryCal sampleDefines
        (sampleEnv SystemP_SUCCESS sampleRecord SystemP_SUCCESS 0 0) (sampleContext 3)
        (Mmw_calibData.zero 4)).calibData = sampleRecord :=
  applied_payload_is_the_record_read sampleDefines
    (sampleEnv SystemP_SUCCESS sampleRecord SystemP_SUCCESS 0 0) (sampleContext 3)
    (Mmw_calibData.zero 4) rfl

/-- C12: when `MMWave_factoryCalibConfig` returns non-success,
`restoreFactoryCal` decodes the error code once, logs the decoded tuple, then
reports `Factory Calibration failure` if and only if the decoded mmWave error
code equals `MMWAVE_ERFSBOOTCAL` and `Invalid Factory calibration arguments`
if and only if it does not; in both cases it returns `-1`. -/
theorem apply_failure_is_classified_by_decoded_code (k : Defines) (env : Env)
    (g : SysContext) (cd : Mmw_calibData)
    (hread : (env.Flash_read k.CLI_FACCALCFG_FLASH_OFFSET k.sizeof_Mmw_calibData cd).1
      ≠ SystemP_FAILURE)
    (hmagic : (env.Flash_read k.CLI_FACCALCFG_FLASH_OFFSET k.sizeof_Mmw_calibData cd).2.magic
      = k.MMWDEMO_CALIB_STORE_MAGIC)
    (happly : (env.MMWave_factoryCalibConfig g.gCtrlHandle (restoreFactoryCal_applied k g)
      (env.Flash_read k.CLI_FACCALCFG_FLASH_OFFSET k.sizeof_Mmw_calibData cd).2).1
      ≠ SystemP_SUCCESS) :
    (restoreFactoryCal k env g cd).ret = -1 ∧
      decodeCalls (restoreFactoryCal k env g cd).trace =
        [(env.MMWave_factoryCalibConfig g.gCtrlHandle (restoreFactoryCal_applied k g)
          (env.Flash_read k.CLI_FACCALCFG_FLASH_OFFSET k.sizeof_Mmw_calibData cd).2).2] ∧
      (LogMsg.factoryCalibrationFailure ∈ logs (restoreFactoryCal k env g cd).trace ↔
        (env.MMWave_decodeError
          (env.MMWave_factoryCalibConfig g.gCtrlHandle (restoreFactoryCal_applied k g)
            (env.Flash_read k.CLI_FACCALCFG_FLASH_OFFSET k.sizeof_Mmw_calibData cd).2).2).2.1
          = k.MMWAVE_ERFSBOOTCAL) ∧
      (LogMsg.invalidFactoryCalibrationArguments ∈ logs (restoreFactoryCal k env g cd).trace ↔
        (env.MMWave_decodeError
          (env.MMWave_factoryCalibConfig g.gCtrlHandle (restoreFactoryCal_applied k g)
            (env.Flash_read k.CLI_FACCALCFG_FLASH_OFFSET k.sizeof_Mmw_calibData cd).2).2).2.1
          ≠ k.MMWAVE_ERFSBOOTCAL) := by
  obtain ⟨hret, htrace⟩ :=
    restoreFactoryCal_trace_of_apply_failure k env g cd hread hmagic happly
  rw [htrace]
  refine ⟨hret, ?_, ?_, ?_⟩
  · simp [decodeCalls, readTrace]
  · by_cases hcode : (env.MMWave_decodeError
        (env.MMWave_factoryCalibConfig g.gCtrlHandle (restoreFactoryCal_applied k g)
          (env.Flash_read k.CLI_FACCALCFG_FLASH_OFFSET k.sizeof_Mmw_calibData cd).2).2).2.1
        = k.MMWAVE_ERFSBOOTCAL
    · simp [logs, readTrace, hcode]
    · simp [logs, readTrace, hcode]
  · by_cases hcode : (env.MMWave_decodeError
        (env.MMWave_factoryCalibConfig g.gCtrlHandle (restoreFactoryCal_applied k g)
          (env.Flash_read k.CLI_FACCALCFG_FLASH_OFFSET k.sizeof_Mmw_calibData cd).2).2).2.1
        = k.MMWAVE_ERFSBOOTCAL
    · simp [logs, readTrace, hcode]
    · simp [logs, readTrace, hcode]

/-- Witness for C12: the apply call fails with error code `-7`, decoded to a
code other than `MMWAVE_ERFSBOOTCAL`; the invalid-arguments line is logged and
the calibration-failure line is not. -/
theorem apply_failure_is_classified_by_decoded_code_witness :
    (restoreFactoryCal sampleDefines (sampleEnv SystemP_SUCCESS sampleRecord (-1) (-7) 5)
        (sampleContext 3) sampleRecord).ret = -1 ∧
      logs (restoreFactoryCal sampleDefines (sampleEnv SystemP_SUCCESS sampleRecord (-1) (-7) 5)
        (sampleContext 3) sampleRecord).trace =
        [LogMsg.controlInitializationFailed (-7) 1 5 0,
         LogMsg.invalidFactoryCalibrationArguments] ∧
      LogMsg.invalidFactoryCalibrationArguments ∈
        logs (restoreFactoryCal sampleDefines
          (sampleEnv SystemP_SUCCESS sampleRecord (-1) (-7) 5) (sampleContext 3)
          sampleRecord).trace :=
  have h := apply_failure_is_classified_by_decoded_code sampleDefines
    (sampleEnv SystemP_SUCCESS sampleRecord (-1) (-7) 5) (sampleContext 3) sampleRecord
    (by decide) (by decide) (by decide)
  ⟨h.1, by decide, h.2.2.2.2 (by decide)⟩

/-- C13: a run of `restoreFactoryCal` returns `-1` exactly when it has emitted
at least one log line, and returns `0` exactly when it has emitted none: no
failing path is silent and the successful path logs nothing. -/
theorem failing_runs_log_and_successful_runs_do_not (k : Defines) (env : Env)
    (g : SysContext) (cd : Mmw_calibData) :
    ((restoreFactoryCal k env g cd).ret = -1 ↔ logs (restoreFactoryCal k env g cd).trace ≠ []) ∧
      ((restoreFactoryCal k env g cd).ret = 0 ↔ logs (restoreFactoryCal k env g cd).trace = []) := by
  by_cases hread : (env.Flash_read k.CLI_FACCALCFG_FLASH_OFFSET k.sizeof_Mmw_calibData cd).1
      = SystemP_FAILURE
  · rw [restoreFactoryCal_of_read_failure k env g cd hread]
    simp [logs, readTrace]
  · by_cases hmagic :
        (env.Flash_read k.CLI_FACCALCFG_FLASH_OFFSET k.sizeof_Mmw_calibData cd).2.magic
          = k.MMWDEMO_CALIB_STORE_MAGIC
    · by_cases happly :
          (env.MMWave_factoryCalibConfig g.gCtrlHandle (restoreFactoryCal_applied k g)
            (env.Flash_read k.CLI_FACCALCFG_FLASH_OFFSET k.sizeof_Mmw_calibData cd).2).1
            = SystemP_SUCCESS
      · rw [restoreFactoryCal_of_apply_success k env g cd hread hmagic happly]
        simp [logs, readTrace]
      · obtain ⟨e, msg, -, h⟩ := restoreFactoryCal_of_apply_failure k env g cd hread hmagic happly
        rw [h]
        simp [logs, readTrace]
    · rw [restoreFactoryCal_of_magic_mismatch k env g cd hread hmagic]
      simp [logs, readTrace]

/-- C14: every run of `restoreFactoryCal` performs exactly one flash read, at
offset `CLI_FACCALCFG_FLASH_OFFSET` and of length `sizeof(Mmw_calibData)`, and
at most one magic comparison, one call of `MMWave_factoryCalibConfig` and one
call of `MMWave_decodeError`: no step is repeated. -/
theorem one_flash_read_and_at_most_one_apply (k : Defines) (env : Env) (g : SysContext)
    (cd : Mmw_calibData) :
    flashReads (restoreFactoryCal k env g cd).trace
        = [(k.CLI_FACCALCFG_FLASH_OFFSET, k.sizeof_Mmw_calibData)] ∧
      (applyCalls (restoreFactoryCal k env g cd).trace).length ≤ 1 ∧
      (magicCompares (restoreFactoryCal k env g cd).trace).length ≤ 1 ∧
      (decodeCalls (restoreFactoryCal k env g cd).trace).length ≤ 1 := by
  by_cases hread : (env.Flash_read k.CLI_FACCALCFG_FLASH_OFFSET k.sizeof_Mmw_calibData cd).1
      = SystemP_FAILURE
  · rw [restoreFactoryCal_of_read_failure k env g cd hread]
    simp [flashReads, applyCalls, magicCompares, decodeCalls, readTrace]
  · by_cases hmagic :
        (env.Flash_read k.CLI_FACCALCFG_FLASH_OFFSET k.sizeof_Mmw_calibData cd).2.magic
          = k.MMWDEMO_CALIB_STORE_MAGIC
    · by_cases happly :
          (env.MMWave_factoryCalibConfig g.gCtrlHandle (restoreFactoryCal_applied k g)
            (env.Flash_read k.CLI_FACCALCFG_FLASH_OFFSET k.sizeof_Mmw_calibData cd).2).1
            = SystemP_SUCCESS
      · rw [restoreFactoryCal_of_apply_success k env g cd hread hmagic happly]
        simp [flashReads, applyCalls, magicCompares, decodeCalls, readTrace]
      · obtain ⟨e, msg, -, h⟩ := restoreFactoryCal_of_apply_failure k env g cd hread hmagic happly
        rw [h]
        simp [flashReads, applyCalls, magicCompares, decodeCalls, readTrace]
    · rw [restoreFactoryCal_of_magic_mismatch k env g cd hread hmagic]
      simp [flashReads, applyCalls, magicCompares, decodeCalls, readTrace]

/-- C15: the calibration control mask of the request, as filled in and as
applied, is `0xCE` for every build and every system context, and the bits set
in it are exactly bits 1 (VCO), 2 (PD), 3 (LODIST), 6 (RX gain) and 7 (TX
power); bit 5 (RX IFA) and the reserved bits 0 and 4 are clear. -/
theorem control_mask_is_0xCE (k : Defines) (g : SysContext) :
    (restoreFactoryCal_request k g).fecRFFactoryCalCmd.h_CalCtrlBitMask = 0xCE ∧
      (restoreFactoryCal_applied k g).fecRFFactoryCalCmd.h_CalCtrlBitMask = 0xCE ∧
      ∀ i : Nat,
        (restoreFactoryCal_applied k g).fecRFFactoryCalCmd.h_CalCtrlBitMask.testBit i = true ↔
          (i = 1 ∨ i = 2 ∨ i = 3 ∨ i = 6 ∨ i = 7) := by
  have hreq : (restoreFactoryCal_request k g).fecRFFactoryCalCmd.h_CalCtrlBitMask = 0xCE := by
    by_cases h3 : g.channelCfg.h_TxChCtrlBitMask = 0x3
    · simp [restoreFactoryCal_request, h3]
    · by_cases h1 : g.channelCfg.h_TxChCtrlBitMask = 0x1
      · simp [restoreFactoryCal_request, h1]
      · by_cases h2 : g.channelCfg.h_TxChCtrlBitMask = 0x2
        · simp [restoreFactoryCal_request, h2]
        · simp [restoreFactoryCal_request, h3, h1, h2]
  have happ : (restoreFactoryCal_applied k g).fecRFFactoryCalCmd.h_CalCtrlBitMask = 0xCE := hreq
  refine ⟨hreq, happ, fun i => ?_⟩
  rw [happ]
  by_cases hi : i < 8
  · interval_cases i <;> decide
  · have hfalse : Nat.testBit 0xCE i = false :=
      Nat.testBit_lt_two_pow
        (Nat.lt_of_lt_of_le (by decide : 0xCE < 2 ^ 8)
          (Nat.pow_le_pow_right (by decide) (Nat.le_of_not_lt hi)))
    rw [hfalse]
    constructor
    · intro h
      exact absurd h (by decide)
    · intro h
      omega

/-- C17 as stated fails: there are no two system contexts, differing only in
their chirp-profile configuration or in anything else, for which the requests
built by `restoreFactoryCal` carry different `xh_CalRfSlope` values. -/
theorem no_two_profiles_give_different_slopes :
    ¬ ∃ (k : Defines) (g₁ g₂ : SysContext),
        { g₂ with profileComCfg := g₁.profileComCfg, profileTimeCfg := g₁.profileTimeCfg } = g₁ ∧
        (restoreFactoryCal_applied k g₁).fecRFFactoryCalCmd.xh_CalRfSlope ≠
          (restoreFactoryCal_applied k g₂).fecRFFactoryCalCmd.xh_CalRfSlope := by
  rintro ⟨k, g₁, g₂, -, hne⟩
  have hslope : ∀ g : SysContext,
      (restoreFactoryCal_applied k g).fecRFFactoryCalCmd.xh_CalRfSlope = 0x4D := by
    intro g
    by_cases h3 : g.channelCfg.h_TxChCtrlBitMask = 0x3
    · simp [restoreFactoryCal_applied, restoreFactoryCal_request, h3]
    · by_cases h1 : g.channelCfg.h_TxChCtrlBitMask = 0x1
      · simp [restoreFactoryCal_applied, restoreFactoryCal_request, h1]
      · by_cases h2 : g.channelCfg.h_TxChCtrlBitMask = 0x2
        · simp [restoreFactoryCal_applied, restoreFactoryCal_request, h2]
        · simp [restoreFactoryCal_applied, restoreFactoryCal_request, h3, h1, h2]
  exact hne ((hslope g₁).trans (hslope g₂).symm)

/-- C17, amended: the request's `xh_CalRfSlope` is the constant `0x4D` (line
105), as filled in and as applied, whatever the chirp profile configuration
holds; it is not derived from the profile. -/
theorem slope_is_the_constant_0x4D (k : Defines) (g : SysContext) :
    (restoreFactoryCal_request k g).fecRFFactoryCalCmd.xh_CalRfSlope = 0x4D ∧
      (restoreFactoryCal_applied k g).fecRFFactoryCalCmd.xh_CalRfSlope = 0x4D := by
  have hreq : (restoreFactoryCal_request k g).fecRFFactoryCalCmd.xh_CalRfSlope = 0x4D := by
    by_cases h3 : g.channelCfg.h_TxChCtrlBitMask = 0x3
    · simp [restoreFactoryCal_request, h3]
    · by_cases h1 : g.channelCfg.h_TxChCtrlBitMask = 0x1
      · simp [restoreFactoryCal_request, h1]
      · by_cases h2 : g.channelCfg.h_TxChCtrlBitMask = 0x2
        · simp [restoreFactoryCal_request, h2]
        · simp [restoreFactoryCal_request, h3, h1, h2]
  exact ⟨hreq, hreq⟩

end FactoryCal

namespace ControlConfig

open FactoryCal (SysContext sampleContext)

/-! ## Bit-level facts -/

theorem and_one_shiftLeft_ne_zero_iff (m c : Nat) :
    m &&& (0x1 <<< c) ≠ 0 ↔ m.testBit c = true := by
  rw [Nat.one_shiftLeft]
  constructor
  · intro h
    obtain ⟨i, hi⟩ := Nat.ne_zero_implies_bit_true h
    simp [Nat.testBit_two_pow] at hi
    obtain ⟨h1, h2⟩ := hi
    subst h2
    exact h1
  · intro h hz
    have hbit : (m &&& 2 ^ c).testBit c = true := by simp [Nat.testBit_two_pow, h]
    rw [hz] at hbit
    simp at hbit

theorem shiftRight_and_one_ne_zero_iff (m i : Nat) :
    (m >>> i) &&& 0x1 ≠ 0 ↔ m.testBit i = true := by
  simp [Nat.testBit, Nat.and_comm]

/-- Inserting `val` into a single-bit field sets that bit to the lowest bit
of `val` and leaves every other bit of the 32-bit register as it was. -/
theorem testBit_CSL_FINS_bit (reg : Nat) (f : CslField) (val i : Nat)
    (hm : f.MASK = 1 <<< f.SHIFT) (hi : i < 32) :
    (CSL_FINS reg f val).testBit i = if i = f.SHIFT then val.testBit 0 else reg.testBit i := by
  have hones : (0xFFFFFFFF : Nat) = 2 ^ 32 - 1 := by decide
  unfold CSL_FINS CSL_FMK
  rw [hm, Nat.one_shiftLeft, hones]
  simp only [Nat.testBit_or, Nat.testBit_and, Nat.testBit_xor, Nat.testBit_two_pow_sub_one,
    Nat.testBit_two_pow, Nat.testBit_mod_two_pow, Nat.testBit_shiftLeft]
  by_cases h : i = f.SHIFT
  · subst h
    simp [hi]
  · have hne : ¬ f.SHIFT = i := fun e => h e.symm
    simp [h, hne, hi]

/-- Extracting a single-bit field gives `1` or `0` according to the bit. -/
theorem CSL_FEXT_bit (reg : Nat) (f : CslField) (hm : f.MASK = 1 <<< f.SHIFT) :
    CSL_FEXT reg f = if reg.testBit f.SHIFT = true then 1 else 0 := by
  unfold CSL_FEXT
  rw [hm, Nat.one_shiftLeft]
  apply Nat.eq_of_testBit_eq
  intro j
  have hshift : ∀ n : Nat, ¬ f.SHIFT = f.SHIFT + (n + 1) := fun n => by omega
  have hlhs : ((reg &&& 2 ^ f.SHIFT) >>> f.SHIFT).testBit j
      = (reg.testBit f.SHIFT && decide (j = 0)) := by
    rw [Nat.testBit_shiftRight, Nat.testBit_and, Nat.testBit_two_pow]
    cases j with
    | zero => simp
    | succ n => simp [hshift n]
  rw [hlhs]
  by_cases hb : reg.testBit f.SHIFT = true
  · rw [if_pos hb, hb]
    cases j with
    | zero => simp
    | succ n => simp [Nat.testBit_succ]
  · rw [if_neg hb]
    simp [hb]

/-! ## The counting loops -/

theorem MMWave_populateChannelCfg_txLoop_eq (L : List Nat) (g : SysContext) :
    MMWave_populateChannelCfg_txLoop L g =
      { g with numTxAntennas :=
          g.numTxAntennas +
            (L.filter (fun i => g.channelCfg.h_TxChCtrlBitMask.testBit i)).length } := by
  induction L generalizing g with
  | nil => simp [MMWave_populateChannelCfg_txLoop]
  | cons i rest ih =>
    rw [MMWave_populateChannelCfg_txLoop]
    by_cases hb : g.channelCfg.h_TxChCtrlBitMask.testBit i = true
    · rw [if_pos ((shiftRight_and_one_ne_zero_iff _ _).2 hb), ih]
      simp [List.filter_cons, hb]
      omega
    · rw [if_neg (fun hc => hb ((shiftRight_and_one_ne_zero_iff _ _).1 hc)), ih]
      simp [List.filter_cons, hb]

theorem MMWave_populateChannelCfg_rxLoop_eq (L : List Nat) (g : SysContext) :
    MMWave_populateChannelCfg_rxLoop L g =
      { g with numRxAntennas :=
          g.numRxAntennas +
            (L.filter (fun i => g.channelCfg.h_RxChCtrlBitMask.testBit i)).length } := by
  induction L generalizing g with
  | nil => simp [MMWave_populateChannelCfg_rxLoop]
  | cons i rest ih =>
    rw [MMWave_populateChannelCfg_rxLoop]
    by_cases hb : g.channelCfg.h_RxChCtrlBitMask.testBit i = true
    · rw [if_pos ((shiftRight_and_one_ne_zero_iff _ _).2 hb), ih]
      simp [List.filter_cons, hb]
      omega
    · rw [if_neg (fun hc => hb ((shiftRight_and_one_ne_zero_iff _ _).1 hc)), ih]
      simp [List.filter_cons, hb]

theorem setBitsBelow_le (mask n : Nat) : setBitsBelow mask n ≤ n := by
  unfold setBitsBelow
  exact (List.length_filter_le _ _).trans (by simp)

/-- With three RX channels `Mmwave_ADCBufConfig` returns, and afterwards bit
`SHIFT` of `ADCBUFCFG1` for each enable field is the matching bit of
`rxChannelEn`. -/
theorem Mmwave_ADCBufConfig_enable_bits (h : AdcBufField → CslField)
    (regs : CSL_app_hwa_adcbuf_ctrlRegs) (rxChannelEn chanDataSize : Nat)
    (hw : EnableFieldsAreDistinctBits h) :
    ∃ st, Mmwave_ADCBufConfig h 3 regs rxChannelEn chanDataSize = some st ∧
      st.regs.ADCBUFCFG1.testBit (h AdcBufField.ADCBUFCFG1_RX0EN).SHIFT
        = rxChannelEn.testBit 0 ∧
      st.regs.ADCBUFCFG1.testBit (h AdcBufField.ADCBUFCFG1_RX1EN).SHIFT
        = rxChannelEn.testBit 1 ∧
      st.regs.ADCBUFCFG1.testBit (h AdcBufField.ADCBUFCFG1_RX2EN).SHIFT
        = rxChannelEn.testBit 2 := by
  obtain ⟨⟨m0, m1, m2⟩, ⟨l0, l1, l2⟩, ⟨d01, d02, d12⟩⟩ := hw
  have hr : List.range 3 = [0, 1, 2] := by decide
  unfold Mmwave_ADCBufConfig
  rw [hr]
  simp only [Mmwave_ADCBufConfig_loop, Mmwave_EnChannelSetOffset,
    and_one_shiftLeft_ne_zero_iff]
  cases b0 : rxChannelEn.testBit 0 <;> cases b1 : rxChannelEn.testBit 1 <;>
    cases b2 : rxChannelEn.testBit 2 <;>
    simp [finsADCBUFCFG1, finsADCBUFCFG2, finsADCBUFCFG3,
      testBit_CSL_FINS_bit _ _ _ _ m0, testBit_CSL_FINS_bit _ _ _ _ m1,
      testBit_CSL_FINS_bit _ _ _ _ m2, l0, l1, l2, d01, d02, d12, d01.symm, d02.symm, d12.symm]

/-! ## Claims about `mmwave_control_config.c` -/

/-- C18: after `MMWave_populateChannelCfg`, whatever the counters held before,
`numTxAntennas` is the number of set bits among the low
`SYS_COMMON_NUM_TX_ANTENNAS` bits of the TX channel bitmask and
`numRxAntennas` is the number of set bits among the low
`SYS_COMMON_NUM_RX_CHANNEL` bits of the RX channel bitmask; hence each count
is at most its limit. The bitmasks are the configured constants as 16-bit
values. -/
theorem antenna_counts_are_set_bits_of_bitmasks (k : ChannelDefines) (g : SysContext) :
    (MMWave_populateChannelCfg k g).channelCfg.h_TxChCtrlBitMask
        = k.CLI_CHA_CFG_TX_BITMASK % 65536 ∧
      (MMWave_populateChannelCfg k g).channelCfg.h_RxChCtrlBitMask
        = k.CLI_CHA_CFG_RX_BITMASK % 65536 ∧
      (MMWave_populateChannelCfg k g).numTxAntennas =
        setBitsBelow (MMWave_populateChannelCfg k g).channelCfg.h_TxChCtrlBitMask
          k.SYS_COMMON_NUM_TX_ANTENNAS ∧
      (MMWave_populateChannelCfg k g).numRxAntennas =
        setBitsBelow (MMWave_populateChannelCfg k g).channelCfg.h_RxChCtrlBitMask
          k.SYS_COMMON_NUM_RX_CHANNEL ∧
      (MMWave_populateChannelCfg k g).numTxAntennas ≤ k.SYS_COMMON_NUM_TX_ANTENNAS ∧
      (MMWave_populateChannelCfg k g).numRxAntennas ≤ k.SYS_COMMON_NUM_RX_CHANNEL := by
  have htx : (MMWave_populateChannelCfg k g).numTxAntennas =
      setBitsBelow (k.CLI_CHA_CFG_TX_BITMASK % 65536) k.SYS_COMMON_NUM_TX_ANTENNAS := by
    simp [MMWave_populateChannelCfg, MMWave_populateChannelCfg_txLoop_eq,
      MMWave_populateChannelCfg_rxLoop_eq, setBitsBelow]
  have hrx : (MMWave_populateChannelCfg k g).numRxAntennas =
      setBitsBelow (k.CLI_CHA_CFG_RX_BITMASK % 65536) k.SYS_COMMON_NUM_RX_CHANNEL := by
    simp [MMWave_populateChannelCfg, MMWave_populateChannelCfg_txLoop_eq,
      MMWave_populateChannelCfg_rxLoop_eq, setBitsBelow]
  have hmt : (MMWave_populateChannelCfg k g).channelCfg.h_TxChCtrlBitMask
      = k.CLI_CHA_CFG_TX_BITMASK % 65536 := by
    simp [MMWave_populateChannelCfg, MMWave_populateChannelCfg_txLoop_eq,
      MMWave_populateChannelCfg_rxLoop_eq]
  have hmr : (MMWave_populateChannelCfg k g).channelCfg.h_RxChCtrlBitMask
      = k.CLI_CHA_CFG_RX_BITMASK % 65536 := by
    simp [MMWave_populateChannelCfg, MMWave_populateChannelCfg_txLoop_eq,
      MMWave_populateChannelCfg_rxLoop_eq]
  refine ⟨hmt, hmr, ?_, ?_, ?_, ?_⟩
  · rw [htx, hmt]
  · rw [hrx, hmr]
  · rw [htx]
    exact setBitsBelow_le _ _
  · rw [hrx]
    exact setBitsBelow_le _ _

/-- C19: with `SYS_COMMON_NUM_RX_CHANNEL = 3` and the three enable fields
being distinct single bits of `ADCBUFCFG1`, `Mmwave_ADCBufConfig` returns and
afterwards, for each channel `c` in `0, 1, 2`, the enable field `RXcEN` reads
`1` if bit `c` of `rxChannelEn` is set and `0` if not, whatever the registers
held before. -/
theorem adcbuf_enable_bits_follow_rxChannelEn (h : AdcBufField → CslField)
    (regs : CSL_app_hwa_adcbuf_ctrlRegs) (rxChannelEn chanDataSize : Nat)
    (hw : EnableFieldsAreDistinctBits h) :
    (Mmwave_ADCBufConfig h 3 regs rxChannelEn chanDataSize).map
        (fun st => CSL_FEXT st.regs.ADCBUFCFG1 (h AdcBufField.ADCBUFCFG1_RX0EN))
        = some (if rxChannelEn.testBit 0 = true then 1 else 0) ∧
      (Mmwave_ADCBufConfig h 3 regs rxChannelEn chanDataSize).map
        (fun st => CSL_FEXT st.regs.ADCBUFCFG1 (h AdcBufField.ADCBUFCFG1_RX1EN))
        = some (if rxChannelEn.testBit 1 = true then 1 else 0) ∧
      (Mmwave_ADCBufConfig h 3 regs rxChannelEn chanDataSize).map
        (fun st => CSL_FEXT st.regs.ADCBUFCFG1 (h AdcBufField.ADCBUFCFG1_RX2EN))
        = some (if rxChannelEn.testBit 2 = true then 1 else 0) := by
  obtain ⟨st, hst, e0, e1, e2⟩ :=
    Mmwave_ADCBufConfig_enable_bits h regs rxChannelEn chanDataSize hw
  obtain ⟨⟨m0, m1, m2⟩, -, -⟩ := hw
  rw [hst]
  simp only [Option.map_some']
  rw [CSL_FEXT_bit _ _ m0, CSL_FEXT_bit _ _ m1, CSL_FEXT_bit _ _ m2, e0, e1, e2]
  exact ⟨rfl, rfl, rfl⟩

/-- Witness for C19: channels 0 and 2 enabled, every register bit set
before the call. -/
theorem adcbuf_enable_bits_follow_rxChannelEn_witness :
    (Mmwave_ADCBufConfig sampleFields 3 sampleRegs 5 0x100).map
        (fun st => CSL_FEXT st.regs.ADCBUFCFG1 (sampleFields AdcBufField.ADCBUFCFG1_RX0EN))
        = some 1 ∧
      (Mmwave_ADCBufConfig sampleFields 3 sampleRegs 5 0x100).map
        (fun st => CSL_FEXT st.regs.ADCBUFCFG1 (sampleFields AdcBufField.ADCBUFCFG1_RX1EN))
        = some 0 ∧
      (Mmwave_ADCBufConfig sampleFields 3 sampleRegs 5 0x100).map
        (fun st => CSL_FEXT st.regs.ADCBUFCFG1 (sampleFields AdcBufField.ADCBUFCFG1_RX2EN))
        = some 1 :=
  adcbuf_enable_bits_follow_rxChannelEn sampleFields sampleRegs 5 0x100
    (by unfold EnableFieldsAreDistinctBits; decide)

/-- The values handed to the address-field insertions, with three RX
channels: for a channel `c` in `0, 1, 2` that is enabled, with `k` enabled
channels below it, exactly one value is handed to the insertion into its
address field, namely `((k * chanDataSize) mod 2^16) >> 4`; for a disabled
channel nothing is inserted into its address field. When `chanDataSize` is a
multiple of 16 and `3 * chanDataSize < 2^16`, that value times 16 is
`k * chanDataSize`. -/
theorem Mmwave_ADCBufConfig_address_writes (h : AdcBufField → CslField)
    (regs : CSL_app_hwa_adcbuf_ctrlRegs) (rxChannelEn chanDataSize c : Nat) (hc : c < 3) :
    (Mmwave_ADCBufConfig h 3 regs rxChannelEn chanDataSize).map
        (fun st => writesTo (addrField c) st.writes) =
        some (if rxChannelEn.testBit c = true then
          [((setBitsBelow rxChannelEn c * chanDataSize) % 2 ^ 16) >>> 4]
        else []) ∧
      (chanDataSize % 16 = 0 → 3 * chanDataSize < 2 ^ 16 →
        (((setBitsBelow rxChannelEn c * chanDataSize) % 2 ^ 16) >>> 4) * 16
          = setBitsBelow rxChannelEn c * chanDataSize) := by
  have hr : List.range 3 = [0, 1, 2] := by decide
  have hr2 : List.range 2 = [0, 1] := by decide
  have hr1 : List.range 1 = [0] := by decide
  unfold Mmwave_ADCBufConfig
  rw [hr]
  simp only [Mmwave_ADCBufConfig_loop, Mmwave_EnChannelSetOffset,
    and_one_shiftLeft_ne_zero_iff]
  interval_cases c <;>
  cases b0 : rxChannelEn.testBit 0 <;> cases b1 : rxChannelEn.testBit 1 <;>
    cases b2 : rxChannelEn.testBit 2 <;>
    simp [finsADCBUFCFG1, finsADCBUFCFG2, finsADCBUFCFG3, writesTo, addrField, setBitsBelow,
      hr1, hr2, b0, b1, b2, Nat.shiftRight_eq_div_pow] <;>
    omega

/-! ## Fields that are runs of bits -/

theorem testBit_range_mask (w s i : Nat) :
    ((2 ^ w - 1) <<< s).testBit i = (decide (s ≤ i) && decide (i - s < w)) := by
  rw [Nat.testBit_shiftLeft, Nat.testBit_two_pow_sub_one]

/-- Inserting `val` into a field that is a run of `w` bits replaces the bits
of the run by the low bits of `val` and leaves the other bits of the 32-bit
register as they were. -/
theorem testBit_CSL_FINS_run (reg : Nat) (f : CslField) (val w i : Nat)
    (hm : f.MASK = (2 ^ w - 1) <<< f.SHIFT) (hi : i < 32) :
    (CSL_FINS reg f val).testBit i =
      if f.SHIFT ≤ i ∧ i - f.SHIFT < w then val.testBit (i - f.SHIFT) else reg.testBit i := by
  have hones : (0xFFFFFFFF : Nat) = 2 ^ 32 - 1 := by decide
  unfold CSL_FINS CSL_FMK
  rw [hm, hones]
  simp only [Nat.testBit_or, Nat.testBit_and, Nat.testBit_xor, Nat.testBit_two_pow_sub_one,
    Nat.testBit_mod_two_pow, testBit_range_mask, Nat.testBit_shiftLeft]
  by_cases h1 : f.SHIFT ≤ i <;> by_cases h2 : i - f.SHIFT < w <;> simp [h1, h2, hi]

theorem testBit_CSL_FEXT_run (reg : Nat) (f : CslField) (w j : Nat)
    (hm : f.MASK = (2 ^ w - 1) <<< f.SHIFT) :
    (CSL_FEXT reg f).testBit j = (decide (j < w) && reg.testBit (f.SHIFT + j)) := by
  unfold CSL_FEXT
  rw [hm, Nat.testBit_shiftRight, Nat.testBit_and, testBit_range_mask]
  by_cases h : j < w <;> simp [h]

/-- A field of `w` bits reads back the inserted value modulo `2^w`. -/
theorem CSL_FEXT_CSL_FINS_same (reg : Nat) (f : CslField) (val w : Nat)
    (hm : f.MASK = (2 ^ w - 1) <<< f.SHIFT) (hlt : f.SHIFT + w ≤ 32) :
    CSL_FEXT (CSL_FINS reg f val) f = val % 2 ^ w := by
  apply Nat.eq_of_testBit_eq
  intro j
  rw [testBit_CSL_FEXT_run _ _ w _ hm, Nat.testBit_mod_two_pow]
  by_cases h : j < w
  · rw [testBit_CSL_FINS_run reg f val w _ hm (by omega)]
    simp [h]
  · simp [h]

/-- An insertion into one field does not change a field that does not overlap
it. -/
theorem CSL_FEXT_CSL_FINS_other (reg : Nat) (f g : CslField) (val w : Nat)
    (hf : f.MASK = (2 ^ w - 1) <<< f.SHIFT) (hg : g.MASK = (2 ^ w - 1) <<< g.SHIFT)
    (hlt : f.SHIFT + w ≤ 32) (hd : f.SHIFT + w ≤ g.SHIFT ∨ g.SHIFT + w ≤ f.SHIFT) :
    CSL_FEXT (CSL_FINS reg g val) f = CSL_FEXT reg f := by
  apply Nat.eq_of_testBit_eq
  intro j
  rw [testBit_CSL_FEXT_run _ _ w _ hf, testBit_CSL_FEXT_run _ _ w _ hf]
  by_cases h : j < w
  · rw [testBit_CSL_FINS_run reg g val w _ hg (by omega)]
    have hno : ¬ (g.SHIFT ≤ f.SHIFT + j ∧ f.SHIFT + j - g.SHIFT < w) := by omega
    simp [h, hno]
  · simp [h]

/-- What the address field of a channel holds after `Mmwave_ADCBufConfig`
with three RX channels: the inserted value modulo `2^width` for an enabled
channel, the previous content for a disabled one. -/
theorem Mmwave_ADCBufConfig_address_fields (h : AdcBufField → CslField)
    (regs : CSL_app_hwa_adcbuf_ctrlRegs) (rxChannelEn chanDataSize c width : Nat) (hc : c < 3)
    (hw : AddressFieldsAreRuns h width) :
    (Mmwave_ADCBufConfig h 3 regs rxChannelEn chanDataSize).map
        (fun st => CSL_FEXT (addrReg c st.regs) (h (addrField c))) =
        some (if rxChannelEn.testBit c = true then
          (((setBitsBelow rxChannelEn c * chanDataSize) % 2 ^ 16) >>> 4) % 2 ^ width
        else CSL_FEXT (addrReg c regs) (h (addrField c))) := by
  obtain ⟨⟨m0, m1, m2⟩, ⟨l0, l1, l2⟩, d⟩ := hw
  have hr : List.range 3 = [0, 1, 2] := by decide
  have hr2 : List.range 2 = [0, 1] := by decide
  have hr1 : List.range 1 = [0] := by decide
  have hmm : ∀ a : Nat, a % 4294967296 % 65536 = a % 65536 := fun a => by omega
  have h2 : (chanDataSize % 65536 + chanDataSize) % 65536 = 2 * chanDataSize % 65536 := by
    omega
  have s01 := fun (r v : Nat) => CSL_FEXT_CSL_FINS_other r _ _ v width m0 m1 l0 d
  have s10 := fun (r v : Nat) => CSL_FEXT_CSL_FINS_other r _ _ v width m1 m0 l1 d.symm
  have s0 := fun (r v : Nat) => CSL_FEXT_CSL_FINS_same r _ v width m0 l0
  have s1 := fun (r v : Nat) => CSL_FEXT_CSL_FINS_same r _ v width m1 l1
  have s2 := fun (r v : Nat) => CSL_FEXT_CSL_FINS_same r _ v width m2 l2
  unfold Mmwave_ADCBufConfig
  rw [hr]
  simp only [Mmwave_ADCBufConfig_loop, Mmwave_EnChannelSetOffset,
    and_one_shiftLeft_ne_zero_iff]
  interval_cases c <;>
  cases b0 : rxChannelEn.testBit 0 <;> cases b1 : rxChannelEn.testBit 1 <;>
    cases b2 : rxChannelEn.testBit 2 <;>
    simp [finsADCBUFCFG1, finsADCBUFCFG2, finsADCBUFCFG3, addrReg, addrField, setBitsBelow,
      hr1, hr2, b0, b1, b2, s01, s10, s0, s1, s2, hmm, h2]

/-- C20 as stated fails: with the sample layout, whose address fields are 11
bits wide, all three channels enabled and `chanDataSize = 0x5000` (a multiple
of 16 with `3 * chanDataSize < 2^16`), channel 2 is the enabled channel number
`k = 2` and `((2 * 0x5000) mod 2^16) >> 4` is 2560, but after
`Mmwave_ADCBufConfig` its address field `ADCBUFADDRX2` holds 512, and 512
times 16 is not `2 * 0x5000`. -/
theorem address_field_is_cut_to_its_width :
    0x5000 % 16 = 0 ∧ 3 * 0x5000 < 2 ^ 16 ∧ Nat.testBit 7 2 = true ∧ setBitsBelow 7 2 = 2 ∧
      ((2 * 0x5000) % 2 ^ 16) >>> 4 = 2560 ∧
      (Mmwave_ADCBufConfig sampleFields 3 sampleRegs 7 0x5000).map
        (fun st => CSL_FEXT st.regs.ADCBUFCFG3 (sampleFields AdcBufField.ADCBUFCFG3_ADCBUFADDRX2))
        = some 512 ∧
      512 * 16 ≠ 2 * 0x5000 := by
  decide

/-- C20, amended: with three RX channels and address fields that are runs of
`width` bits, `Mmwave_ADCBufConfig` packs the enabled channels in ascending
channel order. For an enabled channel `c` with `k` enabled channels below it,
the one value inserted into its address field is `((k * chanDataSize) mod
2^16) >> 4` and the field afterwards holds that value modulo `2^width`; for a
disabled channel nothing is inserted and the field keeps its previous
content. When `chanDataSize` is a multiple of 16, `3 * chanDataSize < 2^16`
and `k * chanDataSize < 16 * 2^width`, the field times 16 is
`k * chanDataSize`. -/
theorem adcbuf_address_fields_hold_packed_offsets (h : AdcBufField → CslField)
    (regs : CSL_app_hwa_adcbuf_ctrlRegs) (rxChannelEn chanDataSize c width : Nat) (hc : c < 3)
    (hw : AddressFieldsAreRuns h width) :
    (Mmwave_ADCBufConfig h 3 regs rxChannelEn chanDataSize).map
        (fun st => writesTo (addrField c) st.writes) =
        some (if rxChannelEn.testBit c = true then
          [((setBitsBelow rxChannelEn c * chanDataSize) % 2 ^ 16) >>> 4]
        else []) ∧
      (Mmwave_ADCBufConfig h 3 regs rxChannelEn chanDataSize).map
        (fun st => CSL_FEXT (addrReg c st.regs) (h (addrField c))) =
        some (if rxChannelEn.testBit c = true then
          (((setBitsBelow rxChannelEn c * chanDataSize) % 2 ^ 16) >>> 4) % 2 ^ width
        else CSL_FEXT (addrReg c regs) (h (addrField c))) ∧
      (chanDataSize % 16 = 0 → 3 * chanDataSize < 2 ^ 16 →
        setBitsBelow rxChannelEn c * chanDataSize < 16 * 2 ^ width →
        ((((setBitsBelow rxChannelEn c * chanDataSize) % 2 ^ 16) >>> 4) % 2 ^ width) * 16
          = setBitsBelow rxChannelEn c * chanDataSize) := by
  obtain ⟨hwrites, hmul⟩ :=
    Mmwave_ADCBufConfig_address_writes h regs rxChannelEn chanDataSize c hc
  refine ⟨hwrites,
    Mmwave_ADCBufConfig_address_fields h regs rxChannelEn chanDataSize c width hc hw, ?_⟩
  intro h16 h3 hfit
  have hval := hmul h16 h3
  have hlt : ((setBitsBelow rxChannelEn c * chanDataSize) % 2 ^ 16) >>> 4 < 2 ^ width := by
    omega
  rw [Nat.mod_eq_of_lt hlt]
  exact hval

/-- Witness for C20 amended: the sample layout (11-bit address fields), all
three channels enabled with `chanDataSize = 0x100`; channel 2 has two enabled
channels below it, `0x200 >> 4` is inserted and is what the field holds. -/
theorem adcbuf_address_fields_hold_packed_offsets_witness :
    (Mmwave_ADCBufConfig sampleFields 3 sampleRegs 7 0x100).map
        (fun st => writesTo (addrField 2) st.writes) = some [0x20] ∧
      (Mmwave_ADCBufConfig sampleFields 3 sampleRegs 7 0x100).map
        (fun st => CSL_FEXT (addrReg 2 st.regs) (sampleFields (addrField 2))) = some 0x20 ∧
      0x20 * 16 = 2 * 0x100 :=
  have hw := adcbuf_address_fields_hold_packed_offsets sampleFields sampleRegs 7 0x100 2 11
    (by decide) (by unfold AddressFieldsAreRuns; decide)
  ⟨hw.1, hw.2.1, hw.2.2 (by decide) (by decide) (by decide)⟩

end ControlConfig

namespace ControlConfig

/-- `Mmwave_EnChannelSetOffset` reaches `DebugP_assert(0)` exactly for channel
arguments other than 0, 1 and 2. -/
theorem Mmwave_EnChannelSetOffset_eq_none_iff (h : AdcBufField → CslField) (st : AdcBufState)
    (channel offset : Nat) :
    Mmwave_EnChannelSetOffset h st channel offset = none ↔ 3 ≤ channel := by
  unfold Mmwave_EnChannelSetOffset
  match channel with
  | 0 => simp
  | 1 => simp
  | 2 => simp
  | n + 3 => simp

/-- With four RX channels and channel 3 enabled the assertion is reached. -/
theorem Mmwave_ADCBufConfig_four_channels_asserts :
    Mmwave_ADCBufConfig sampleFields 4 sampleRegs 8 0x100 = none := by
  decide

/-- C21: provided `SYS_COMMON_NUM_RX_CHANNEL <= 3`, for every `rxChannelEn`
and `chanDataSize` (and every register content and field layout)
`Mmwave_ADCBufConfig` runs to its end without `DebugP_assert(0)` being
executed; as `Mmwave_EnChannelSetOffset` asserts exactly when its channel
argument is not 0, 1 or 2, every channel argument passed is 0, 1 or 2. -/
theorem adcbuf_assert_unreachable (h : AdcBufField → CslField) (numRxChannel : Nat)
    (regs : CSL_app_hwa_adcbuf_ctrlRegs) (rxChannelEn chanDataSize : Nat)
    (hN : numRxChannel ≤ 3) :
    (Mmwave_ADCBufConfig h numRxChannel regs rxChannelEn chanDataSize).isSome = true ∧
      ∀ (st : AdcBufState) (channel offset : Nat),
        Mmwave_EnChannelSetOffset h st channel offset = none ↔
          ¬ (channel = 0 ∨ channel = 1 ∨ channel = 2) := by
  have hr3 : List.range 3 = [0, 1, 2] := by decide
  have hr2 : List.range 2 = [0, 1] := by decide
  have hr1 : List.range 1 = [0] := by decide
  refine ⟨?_, fun st channel offset => ?_⟩
  · unfold Mmwave_ADCBufConfig
    interval_cases numRxChannel
    · simp [Mmwave_ADCBufConfig_loop]
    · rw [hr1]
      simp only [Mmwave_ADCBufConfig_loop, Mmwave_EnChannelSetOffset]
      split <;> rfl
    · rw [hr2]
      simp only [Mmwave_ADCBufConfig_loop, Mmwave_EnChannelSetOffset]
      split <;> split <;> rfl
    · rw [hr3]
      simp only [Mmwave_ADCBufConfig_loop, Mmwave_EnChannelSetOffset]
      split <;> split <;> split <;> rfl
  · rw [Mmwave_EnChannelSetOffset_eq_none_iff]
    omega

/-- Witness for C21: three RX channels, all enabled. -/
theorem adcbuf_assert_unreachable_witness :
    (Mmwave_ADCBufConfig sampleFields 3 sampleRegs 7 0x100).isSome = true :=
  (adcbuf_assert_unreachable sampleFields 3 sampleRegs 7 0x100 (by decide)).1

/-- C26: after `Mmwave_populateDefaultProfileCfg`, whatever the three
structures held before, every field of `*ptrProfileCfg` other than
`c_VcoMultiChipMode` equals the same field of `gSysContext.profileComCfg`,
`c_VcoMultiChipMode` is `0`, every field of `*ptrProfileTimeCfg` equals the
same field of `gSysContext.profileTimeCfg`, and the frequency slope in both is
`CLI_CHIRP_FREQ_SLOPE` as a signed 16-bit value, which is the constant itself
when it lies in the 16-bit range. -/
theorem profile_outputs_mirror_global_profile (k : ProfileDefines) (c : ChannelDefines)
    (g : ProfileState) (p : T_RL_API_SENS_CHIRP_PROF_COMN_CFG)
    (t : T_RL_API_SENS_CHIRP_PROF_TIME_CFG) :
    (Mmwave_populateDefaultProfileCfg k c g p t).ptrProfileCfg =
        { (Mmwave_populateDefaultProfileCfg k c g p t).gSysContext.profileComCfg with
          c_VcoMultiChipMode := 0 } ∧
      (Mmwave_populateDefaultProfileCfg k c g p t).ptrProfileTimeCfg =
        (Mmwave_populateDefaultProfileCfg k c g p t).gSysContext.profileTimeCfg ∧
      (Mmwave_populateDefaultProfileCfg k c g p t).ptrProfileTimeCfg.xh_ChirpRfFreqSlope
        = toInt16 k.CLI_CHIRP_FREQ_SLOPE ∧
      (Mmwave_populateDefaultProfileCfg k c g p t).gSysContext.profileTimeCfg.xh_ChirpRfFreqSlope
        = toInt16 k.CLI_CHIRP_FREQ_SLOPE ∧
      (-32768 ≤ k.CLI_CHIRP_FREQ_SLOPE → k.CLI_CHIRP_FREQ_SLOPE < 32768 →
        toInt16 k.CLI_CHIRP_FREQ_SLOPE = k.CLI_CHIRP_FREQ_SLOPE) := by
  refine ⟨?_, ?_, ?_, ?_, ?_⟩
  · simp [Mmwave_populateDefaultProfileCfg, Mmwave_populateDefaultProfileCfg_ptrProfileCfg,
      Mmwave_populateDefaultProfileCfg_global]
  · simp [Mmwave_populateDefaultProfileCfg, Mmwave_populateDefaultProfileCfg_ptrProfileTimeCfg,
      Mmwave_populateDefaultProfileCfg_global]
  · simp [Mmwave_populateDefaultProfileCfg, Mmwave_populateDefaultProfileCfg_ptrProfileTimeCfg,
      Mmwave_populateDefaultProfileCfg_global]
  · simp [Mmwave_populateDefaultProfileCfg, Mmwave_populateDefaultProfileCfg_global]
  · intro hlo hhi
    unfold toInt16
    omega

/-- Witness for C26: the sample constants, with every field at 9 before the
call; the slope `419` set by line 117 is what both structures hold, not the
`35` of line 107. -/
theorem profile_outputs_mirror_global_profile_witness :
    (Mmwave_populateDefaultProfileCfg sampleProfileDefines sampleChannelDefines
        sampleProfileState sampleProfileState.profileComCfg
        sampleProfileState.profileTimeCfg).ptrProfileTimeCfg.xh_ChirpRfFreqSlope = 419 ∧
      (Mmwave_populateDefaultProfileCfg sampleProfileDefines sampleChannelDefines
        sampleProfileState sampleProfileState.profileComCfg
        sampleProfileState.profileTimeCfg).gSysContext.profileTimeCfg.xh_ChirpRfFreqSlope
        = 419 ∧
      (Mmwave_populateDefaultProfileCfg sampleProfileDefines sampleChannelDefines
        sampleProfileState sampleProfileState.profileComCfg
        sampleProfileState.profileTimeCfg).ptrProfileCfg.c_VcoMultiChipMode = 0 :=
  have hw := profile_outputs_mirror_global_profile sampleProfileDefines sampleChannelDefines
    sampleProfileState sampleProfileState.profileComCfg sampleProfileState.profileTimeCfg
  ⟨hw.2.2.1.trans (hw.2.2.2.2 (by decide) (by decide)),
   hw.2.2.2.1.trans (hw.2.2.2.2 (by decide) (by decide)),
   (congrArg T_RL_API_SENS_CHIRP_PROF_COMN_CFG.c_VcoMultiChipMode hw.1).trans rfl⟩

end ControlConfig

namespace UartTransmit

open FactoryCal (SystemP_SUCCESS)

/-! ## Reading a trace of the transmit loop -/

theorem requests_append (a b : List Event) : requests (a ++ b) = requests a ++ requests b := by
  induction a with
  | nil => simp [requests]
  | cons e rest ih => cases e <;> simp [requests, ih]

theorem failedWrites_append (a b : List Event) :
    failedWrites (a ++ b) = failedWrites a + failedWrites b := by
  induction a with
  | nil => simp [failedWrites]
  | cons e rest ih => cases e <;> simp [failedWrites, ih, Nat.add_assoc]

theorem logCount_append (a b : List Event) : logCount (a ++ b) = logCount a + logCount b := by
  induction a with
  | nil => simp [logCount]
  | cons e rest ih => cases e <;> simp [logCount, ih, Nat.add_assoc]

theorem postCount_append (a b : List Event) : postCount (a ++ b) = postCount a + postCount b := by
  induction a with
  | nil => simp [postCount]
  | cons e rest ih => cases e <;> simp [postCount, ih, Nat.add_assoc]

theorem pendCount_append (a b : List Event) : pendCount (a ++ b) = pendCount a + pendCount b := by
  induction a with
  | nil => simp [pendCount]
  | cons e rest ih => cases e <;> simp [pendCount, ih, Nat.add_assoc]

/-- One `UART_write` with its status check: one more request, no semaphore
step, and one more log line exactly when the write failed. -/
theorem uartWrite_spec (U : List Event → Buf → Nat → Int) (buf : Buf) (count : Nat)
    (t : List Event) :
    requests (uartWrite U buf count t) = requests t ++ [(buf, count)] ∧
      postCount (uartWrite U buf count t) = postCount t ∧
      pendCount (uartWrite U buf count t) = pendCount t ∧
      logCount (uartWrite U buf count t) + failedWrites t
        = logCount t + failedWrites (uartWrite U buf count t) := by
  unfold uartWrite
  by_cases h : U t buf count = SystemP_SUCCESS
  · simp [h, requests_append, postCount_append, pendCount_append, logCount_append,
      failedWrites_append, requests, postCount, pendCount, logCount, failedWrites]
  · simp [h, requests_append, postCount_append, pendCount_append, logCount_append,
      failedWrites_append, requests, postCount, pendCount, logCount, failedWrites]
    omega

/-- With `chirp_index = 1` and `antenna_index = 0` the expression of line 62
is the range-bin index itself. -/
theorem address_offset_one_zero (r : Nat) (hr : r < 256) : address_offset 1 0 r = r := by
  unfold address_offset
  simp
  omega

/-- The data loop: run `i` requests 4 bytes of `radarCube[i mod 256]`. -/
theorem uart_transmit_loop_data_spec (U : List Event → Buf → Nat → Int) (L : List Nat)
    (t : List Event) :
    requests (uart_transmit_loop_data U L t)
        = requests t ++ L.map (fun i => (Buf.radarCube (i % 256), 4)) ∧
      postCount (uart_transmit_loop_data U L t) = postCount t ∧
      pendCount (uart_transmit_loop_data U L t) = pendCount t ∧
      logCount (uart_transmit_loop_data U L t) + failedWrites t
        = logCount t + failedWrites (uart_transmit_loop_data U L t) := by
  induction L generalizing t with
  | nil => simp [uart_transmit_loop_data]
  | cons i rest ih =>
    rw [uart_transmit_loop_data]
    rw [address_offset_one_zero (i % 256) (Nat.mod_lt _ (by decide))]
    obtain ⟨h1, h2, h3, h4⟩ := uartWrite_spec U (Buf.radarCube (i % 256)) 4 t
    obtain ⟨k1, k2, k3, k4⟩ := ih (uartWrite U (Buf.radarCube (i % 256)) 4 t)
    refine ⟨?_, ?_, ?_, ?_⟩
    · rw [k1, h1]
      simp
    · rw [k2, h2]
    · rw [k3, h3]
    · omega

/-- One pass through the loop body, on top of the trace `t` made so far. -/
theorem uart_transmit_loop_body_spec (N : Nat) (U : List Event → Buf → Nat → Int)
    (t : List Event) :
    requests (uart_transmit_loop_body N U t)
        = requests t ++ (Buf.header, 4) ::
            ((List.range N).map (fun i => (Buf.radarCube (i % 256), 4)) ++ [(Buf.footer, 4)]) ∧
      postCount (uart_transmit_loop_body N U t) = postCount t + 1 ∧
      pendCount (uart_transmit_loop_body N U t) = pendCount t + 1 ∧
      logCount (uart_transmit_loop_body N U t) + failedWrites t
        = logCount t + failedWrites (uart_transmit_loop_body N U t) := by
  unfold uart_transmit_loop_body
  simp only []
  obtain ⟨a1, a2, a3, a4⟩ := uartWrite_spec U Buf.header 4 (t ++ [Event.pend])
  obtain ⟨b1, b2, b3, b4⟩ := uart_transmit_loop_data_spec U (List.range N)
    (uartWrite U Buf.header 4 (t ++ [Event.pend]))
  obtain ⟨c1, c2, c3, c4⟩ := uartWrite_spec U Buf.footer 4
    (uart_transmit_loop_data U (List.range N) (uartWrite U Buf.header 4 (t ++ [Event.pend])))
  have p1 : requests (t ++ [Event.pend]) = requests t := by simp [requests_append, requests]
  have p2 : postCount (t ++ [Event.pend]) = postCount t := by simp [postCount_append, postCount]
  have p3 : pendCount (t ++ [Event.pend]) = pendCount t + 1 := by
    simp [pendCount_append, pendCount]
  have p4 : logCount (t ++ [Event.pend]) = logCount t := by simp [logCount_append, logCount]
  have p5 : failedWrites (t ++ [Event.pend]) = failedWrites t := by
    simp [failedWrites_append, failedWrites]
  refine ⟨?_, ?_, ?_, ?_⟩
  · rw [requests_append, c1, b1, a1, p1]
    simp [requests]
  · rw [postCount_append, c2, b2, a2, p2]
    simp [postCount]
  · rw [pendCount_append, c3, b3, a3, p3]
    simp [pendCount]
  · rw [logCount_append, failedWrites_append]
    simp only [logCount, failedWrites]
    omega

/-- After `frames` passes the done semaphore has been posted `frames` times
and the start semaphore taken `frames` times. -/
theorem uart_transmit_loop_counts (N : Nat) (U : List Event → Buf → Nat → Int) (frames : Nat) :
    postCount (uart_transmit_loop N U frames) = frames ∧
      pendCount (uart_transmit_loop N U frames) = frames := by
  induction frames with
  | zero => simp [uart_transmit_loop, postCount, pendCount]
  | succ n ih =>
    rw [uart_transmit_loop]
    obtain ⟨-, h2, h3, -⟩ := uart_transmit_loop_body_spec N U (uart_transmit_loop N U n)
    rw [h2, h3, ih.1, ih.2]
    exact ⟨rfl, rfl⟩

/-- The expression of line 62 with `chirp_index = 1`, `antenna_index = 0` is
the row-major index of chirp 0, antenna 0, for every cube shape; the element
of chirp 1, antenna 0 lies `numAntennas * numRangeBins` further on. -/
theorem address_offset_is_index_of_chirp_zero (numAntennas numRangeBins i : Nat) :
    address_offset 1 0 (i % 256) = rowMajorIndex numAntennas numRangeBins 0 0 (i % 256) ∧
      rowMajorIndex numAntennas numRangeBins 1 0 (i % 256)
        = address_offset 1 0 (i % 256) + numAntennas * numRangeBins := by
  rw [address_offset_one_zero (i % 256) (Nat.mod_lt _ (by decide))]
  unfold rowMajorIndex
  constructor
  · simp
  · simp
    omega

/-! ## Claims about `uart_transmit_loop` -/

/-- C22: each pass through the loop body, after whatever happened before and
whatever the UART writes return, requests in order 4 bytes of `header` (AA BB
CC DD), then 4 bytes in each of `NUM_RANGE_BINS` data writes, then 4 bytes of
`footer` (DD CC BB AA, the header reversed): `NUM_RANGE_BINS + 2` writes and
`8 + 4 * NUM_RANGE_BINS` bytes. Every failed write adds one log line and
nothing else, the start semaphore is taken once and the done semaphore is
posted once per pass, so after any number of passes the posts equal the
passes. -/
theorem frame_is_header_bins_footer (NUM_RANGE_BINS : Nat)
    (UART_write : List Event → Buf → Nat → Int) (trace : List Event) (frames : Nat) :
    header = [0xAA, 0xBB, 0xCC, 0xDD] ∧ footer = header.reverse ∧
      requests (uart_transmit_loop_body NUM_RANGE_BINS UART_write trace)
        = requests trace ++ (Buf.header, 4) ::
            ((List.range NUM_RANGE_BINS).map (fun i => (Buf.radarCube (i % 256), 4))
              ++ [(Buf.footer, 4)]) ∧
      (requests (uart_transmit_loop_body NUM_RANGE_BINS UART_write trace)).length
        = (requests trace).length + (NUM_RANGE_BINS + 2) ∧
      ((requests (uart_transmit_loop_body NUM_RANGE_BINS UART_write trace)).map Prod.snd).sum
        = ((requests trace).map Prod.snd).sum + (8 + 4 * NUM_RANGE_BINS) ∧
      logCount (uart_transmit_loop_body NUM_RANGE_BINS UART_write trace) + failedWrites trace
        = logCount trace + failedWrites (uart_transmit_loop_body NUM_RANGE_BINS UART_write trace) ∧
      pendCount (uart_transmit_loop_body NUM_RANGE_BINS UART_write trace) = pendCount trace + 1 ∧
      postCount (uart_transmit_loop_body NUM_RANGE_BINS UART_write trace) = postCount trace + 1 ∧
      postCount (uart_transmit_loop NUM_RANGE_BINS UART_write frames) = frames := by
  obtain ⟨h1, h2, h3, h4⟩ := uart_transmit_loop_body_spec NUM_RANGE_BINS UART_write trace
  refine ⟨rfl, rfl, h1, ?_, ?_, h4, h3, h2,
    (uart_transmit_loop_counts NUM_RANGE_BINS UART_write frames).1⟩
  · rw [h1]
    simp
  · rw [h1]
    simp [List.sum_append, Function.comp_def]
    omega

/-- C23, evaluated on the code: for a cube of 3 antennas and 64 range bins,
the expression of line 62 with the values the loop fixes (`chirp_index = 1`,
`antenna_index = 0`) and range bin 5 is 5, the row-major index of
`X[0][0][5]`; the row-major index of `X[1][0][5]` is 197. The data write for
range bin 5 of a frame requests `radarCube[5]`. -/
theorem address_offset_is_not_row_major :
    address_offset 1 0 5 = 5 ∧ rowMajorIndex 3 64 0 0 5 = 5 ∧ rowMajorIndex 3 64 1 0 5 = 197 ∧
      (requests (uart_transmit_loop_body 64 uartAlwaysOk []))[6]? = some (Buf.radarCube 5, 4) := by
  refine ⟨by decide, by decide, by decide, ?_⟩
  rw [(uart_transmit_loop_body_spec 64 uartAlwaysOk []).1]
  decide

set_option maxRecDepth 100000 in
/-- C24, evaluated on the code: with `NUM_RANGE_BINS = 257` the data write
for range bin 256 requests `radarCube[0]`, as the data write for range bin 0
does, and no write of the frame requests `radarCube[256]`. -/
theorem range_bin_index_wraps_at_256 :
    (requests (uart_transmit_loop_body 257 uartAlwaysOk []))[257]?
        = some (Buf.radarCube 0, 4) ∧
      (requests (uart_transmit_loop_body 257 uartAlwaysOk []))[1]?
        = some (Buf.radarCube 0, 4) ∧
      (Buf.radarCube 256, 4) ∉ requests (uart_transmit_loop_body 257 uartAlwaysOk []) := by
  rw [(uart_transmit_loop_body_spec 257 uartAlwaysOk []).1]
  decide

end UartTransmit

namespace MmwaveBasic

open FactoryCal (SystemP_SUCCESS SystemP_FAILURE SysContext)

/-- C25: `mmwave_stop_close_deinit` always calls `MMWave_stop`, `MMWave_close`
and `MMWave_deinit`, once each and in that order, whatever the earlier calls
returned; it returns `SystemP_FAILURE` if and only if at least one of the
three returned a negative value, and `SystemP_SUCCESS` otherwise. -/
theorem teardown_runs_all_steps (env : Env) (g : SysContext) :
    teardownCalls (mmwave_stop_close_deinit env g).2
        = [Event.stop g.gCtrlHandle, Event.close g.gCtrlHandle, Event.deinit g.gCtrlHandle] ∧
      ((mmwave_stop_close_deinit env g).1 = SystemP_FAILURE ↔
        ((env.MMWave_stop g.gCtrlHandle).1 < 0 ∨ (env.MMWave_close g.gCtrlHandle).1 < 0 ∨
          (env.MMWave_deinit g.gCtrlHandle).1 < 0)) ∧
      ((mmwave_stop_close_deinit env g).1 = SystemP_SUCCESS ↔
        ¬ ((env.MMWave_stop g.gCtrlHandle).1 < 0 ∨ (env.MMWave_close g.gCtrlHandle).1 < 0 ∨
          (env.MMWave_deinit g.gCtrlHandle).1 < 0)) := by
  by_cases h1 : (env.MMWave_stop g.gCtrlHandle).1 < 0 <;>
    by_cases h2 : (env.MMWave_close g.gCtrlHandle).1 < 0 <;>
    by_cases h3 : (env.MMWave_deinit g.gCtrlHandle).1 < 0 <;>
    simp [mmwave_stop_close_deinit, teardownCalls, h1, h2, h3, SystemP_SUCCESS,
      SystemP_FAILURE]

end MmwaveBasic
